import Mathlib

/-!
Verification development for the cpu-sim repository: a shallow embedding of
the CPU engine (`src/cpu/cpu.ts`), the compute unit (`src/gpu/gpu.ts`) and
the two-pass assembler (`src/assembler/assembler.ts`), together with theorems
settling the spec claims C1-C10.

Numbers are embedded as `Int` (JavaScript numbers are exact on the integer
ranges exercised here); JavaScript's 32-bit coercions for the bitwise
operators are embedded explicitly (`toInt32`, `toUint32`).  A thrown
JavaScript exception is an `Except`/`Option String` error value; the
distinction between an exception caught by `step`/`microStep`'s try/catch
and one that escapes the method is made explicit in `CPU.step` /
`CPU.microStep` below.
-/

namespace CpuSim

/-! ## JavaScript arithmetic helpers -/

/-- `x & 0xffff` for an arbitrary JS integer: the low 16 bits
(`Int.emod` is non-negative for a positive modulus). -/
def mask16 (x : Int) : Int := x % 65536

/-- `x & 0xff`: the low 8 bits. -/
def mask8 (x : Int) : Int := x % 256

/-- JS `ToUint32`. -/
def toUint32 (x : Int) : Int := x % 4294967296

/-- JS `ToInt32`. -/
def toInt32 (x : Int) : Int :=
  let u := toUint32 x
  if u < 2147483648 then u else u - 4294967296

/-- JS `a & b` (both operands coerced with `ToInt32`, result `ToInt32`). -/
def jsAnd (a b : Int) : Int :=
  toInt32 (Int.ofNat (Nat.land (toUint32 a).toNat (toUint32 b).toNat))

/-- JS `a | b`. -/
def jsOr (a b : Int) : Int :=
  toInt32 (Int.ofNat (Nat.lor (toUint32 a).toNat (toUint32 b).toNat))

/-- JS `a ^ b`. -/
def jsXor (a b : Int) : Int :=
  toInt32 (Int.ofNat (Nat.xor (toUint32 a).toNat (toUint32 b).toNat))

/-- JS `~a`: bitwise not on 32 bits. -/
def jsNot (a : Int) : Int :=
  toInt32 (Int.ofNat (Nat.xor (toUint32 a).toNat 4294967295))

/-- JS `a << b`: shift count is `ToUint32(b) & 31`, result is `ToInt32`. -/
def jsShl (a b : Int) : Int :=
  toInt32 (toUint32 (toInt32 a * 2 ^ (toUint32 b % 32).toNat))

/-- JS `a >>> b`: unsigned right shift, result in `[0, 2^32)`. -/
def jsShrU (a b : Int) : Int :=
  (toUint32 a) / 2 ^ (toUint32 b % 32).toNat

/-- JS `Math.floor(a / b)`.  For `b = 0` JS produces `Infinity`/`NaN`, and
every use site in the source immediately masks with `& 0xffff`, which maps
both to `0`; we fold that into the value here. -/
def jsFloorDiv (a b : Int) : Int := if b = 0 then 0 else Int.fdiv a b

/-- JS `a % b` (truncated remainder, sign of the dividend).  For `b = 0`
JS produces `NaN`, masked to `0` at every use site (see `jsFloorDiv`). -/
def jsRem (a b : Int) : Int := if b = 0 then 0 else Int.tmod a b

/-- JS `Math.floor(Math.sqrt(a))` on the (non-negative, small) inputs the
simulator produces.  A negative input gives `NaN` in JS, which no masked
use site of this simulator ever stores; it is embedded as `0`. -/
def jsSqrt (a : Int) : Int := if a < 0 then 0 else Int.ofNat (Nat.sqrt a.toNat)

/-- `cpuMemory[i] ?? 0` / `vram[i] ?? 0`-style indexing. -/
def idxGet (l : List Int) (i : Int) : Int :=
  if 0 ≤ i then l.getD i.toNat 0 else 0

/-- In-range list update; a JS write at a negative index stores a non-index
property invisible to `[...arr]` copies and to in-range reads, so it is
dropped (no use site in the claims reaches a negative index). -/
def idxSet (l : List Int) (i : Int) (v : Int) : List Int :=
  if 0 ≤ i then l.set i.toNat v else l

/-! ## Compute unit (`src/gpu/gpu.ts`)

The GPU's `emit` only notifies external display listeners and never feeds
back into the engine, so the embedded operations are pure state
transformers; the descriptive `GPUMicroOp` return values are likewise
instrumentation and are not needed by any claim, so they are omitted. -/

def GPU_CORE_COUNT : Nat := 8
def VRAM_SIZE : Nat := 128

structure GPUCore where
  id : Nat
  busy : Bool
  currentOp : String
  inputA : Int
  inputB : Int
  output : Int
  deriving DecidableEq, Repr, Inhabited

structure GPU where
  vram : List Int
  cores : List GPUCore
  busy : Bool
  /-- `currentOp` is typed `GPUOperation | null` in TS, but `GEXEC` casts an
  arbitrary uppercased operand string into it unchecked, so at runtime it is
  an arbitrary string. -/
  currentOp : Option String
  cyclesRemaining : Int
  srcAddr : Int
  dstAddr : Int
  length : Int
  scalar : Int
  result : Int
  currentCoreIndex : Int
  deriving DecidableEq, Repr, Inhabited

def GPUCore.initial (i : Nat) : GPUCore :=
  { id := i, busy := false, currentOp := "", inputA := 0, inputB := 0, output := 0 }

/-- `GPU.reset()` / the state of a freshly constructed GPU. -/
def GPU.reset : GPU :=
  { vram := List.replicate VRAM_SIZE 0
    cores := (List.range GPU_CORE_COUNT).map GPUCore.initial
    busy := false
    currentOp := none
    cyclesRemaining := 0
    srcAddr := 0
    dstAddr := 0
    length := 0
    scalar := 0
    result := 0
    currentCoreIndex := 0 }

def GPU.isBusy (g : GPU) : Bool := g.busy

def GPU.getResult (g : GPU) : Int := g.result

/-- `loadToVRAM(cpuMemory, cpuAddr, vramAddr, length)`: copy
`length` cells from CPU memory (addresses wrapped `& 0xff`) into VRAM
(addresses wrapped `% VRAM_SIZE`). -/
def GPU.loadToVRAM (g : GPU) (cpuMemory : List Int) (cpuAddr vramAddr len : Int) : GPU :=
  loop g len.toNat 0
where
  loop (g : GPU) : Nat → Nat → GPU
    | 0, _ => g
    | n + 1, i =>
      let srcIdx := mask8 (cpuAddr + i)
      let dstIdx := (vramAddr + i) % (VRAM_SIZE : Int)
      loop { g with vram := idxSet g.vram dstIdx (idxGet cpuMemory srcIdx) } n (i + 1)

/-- `storeFromVRAM(cpuMemory, vramAddr, cpuAddr, length)`: the TS method
mutates the caller's `cpuMemory` array in place; the updated CPU memory is
returned alongside the (unchanged) GPU. -/
def GPU.storeFromVRAM (g : GPU) (cpuMemory : List Int) (vramAddr cpuAddr len : Int) :
    List Int :=
  loop cpuMemory len.toNat 0
where
  loop (mem : List Int) : Nat → Nat → List Int
    | 0, _ => mem
    | n + 1, i =>
      let srcIdx := (vramAddr + i) % (VRAM_SIZE : Int)
      let dstIdx := mask8 (cpuAddr + i)
      loop (idxSet mem dstIdx (idxGet g.vram srcIdx)) n (i + 1)

/-- `startOperation(op, srcAddr, dstAddr, length, scalar)`: unconditionally
installs the new descriptor (there is no busy check in the source), resets
all cores to idle and computes the batch count `ceil(length / 8)`. -/
def GPU.startOperation (g : GPU) (op : String) (srcAddr dstAddr len scalar : Int) : GPU :=
  let len' := min len (VRAM_SIZE : Int)
  { g with
    busy := true
    currentOp := some op
    srcAddr := srcAddr
    dstAddr := dstAddr
    length := len'
    scalar := scalar
    result := 0
    currentCoreIndex := 0
    cyclesRemaining := (len' + (GPU_CORE_COUNT : Int) - 1).fdiv (GPU_CORE_COUNT : Int)
    cores := g.cores.map fun c =>
      { c with busy := false, currentOp := "", inputA := 0, inputB := 0, output := 0 } }

/-- One iteration of `cycle`'s per-core loop body: core `coreId` processes
element `currentCoreIndex + coreId`. -/
def GPU.processCore (g : GPU) (op : String) (coreId : Nat) : GPU :=
  let elementIndex := g.currentCoreIndex + coreId
  let srcIdx := (g.srcAddr + elementIndex) % (VRAM_SIZE : Int)
  let dstIdx := (g.dstAddr + elementIndex) % (VRAM_SIZE : Int)
  let inputA := idxGet g.vram srcIdx
  let inputB :=
    if op = "VADD" ∨ op = "VSUB" ∨ op = "VMUL" ∨ op = "VDIV" ∨ op = "VDOT" then
      idxGet g.vram dstIdx
    else if op = "VSCALE" then g.scalar
    else 0
  let core0 : GPUCore :=
    { (g.cores.getD coreId default) with
      busy := true, currentOp := op, inputA := inputA, inputB := inputB }
  -- the operation switch: output, plus the vram / result side effect
  let withCore (c : GPUCore) (g' : GPU) : GPU := { g' with cores := g'.cores.set coreId c }
  match op with
  | "VADD" =>
    let out := mask16 (inputA + inputB)
    withCore { core0 with output := out } { g with vram := idxSet g.vram dstIdx out }
  | "VSUB" =>
    let out := mask16 (inputA - inputB)
    withCore { core0 with output := out } { g with vram := idxSet g.vram dstIdx out }
  | "VMUL" =>
    let out := mask16 (inputA * inputB)
    withCore { core0 with output := out } { g with vram := idxSet g.vram dstIdx out }
  | "VDIV" =>
    let out := if inputB ≠ 0 then Int.fdiv inputA inputB else 0
    withCore { core0 with output := out } { g with vram := idxSet g.vram dstIdx out }
  | "VSCALE" =>
    let out := mask16 (inputA * g.scalar)
    withCore { core0 with output := out } { g with vram := idxSet g.vram dstIdx out }
  | "VDOT" =>
    let out := mask16 (inputA * inputB)
    withCore { core0 with output := out } { g with result := mask16 (g.result + out) }
  | "VSUM" =>
    let out := inputA
    withCore { core0 with output := out } { g with result := mask16 (g.result + out) }
  | "VMAX" =>
    let out := inputA
    withCore { core0 with output := out }
      (if elementIndex = 0 ∨ inputA > g.result then { g with result := inputA } else g)
  | "VMIN" =>
    let out := inputA
    withCore { core0 with output := out }
      (if elementIndex = 0 ∨ inputA < g.result then { g with result := inputA } else g)
  | "VABS" =>
    let out := if inputA > 0x7fff then mask16 (0x10000 - inputA) else inputA
    withCore { core0 with output := out } { g with vram := idxSet g.vram dstIdx out }
  | "VSQRT" =>
    let out := jsSqrt inputA
    withCore { core0 with output := out } { g with vram := idxSet g.vram dstIdx out }
  | "VCOPY" =>
    let out := inputA
    withCore { core0 with output := out } { g with vram := idxSet g.vram dstIdx out }
  | _ => withCore core0 g

/-- `cycle`'s `for (coreId = 0; coreId < GPU_CORE_COUNT; coreId++)` loop with
its `break` when `currentCoreIndex + coreId >= length`; `fuel` counts the
remaining iterations (initially `GPU_CORE_COUNT`). -/
def GPU.cycleCores (op : String) : Nat → Nat → GPU → GPU
  | 0, _, g => g
  | fuel + 1, coreId, g =>
    if g.currentCoreIndex + coreId ≥ g.length then g
    else GPU.cycleCores op fuel (coreId + 1) (g.processCore op coreId)

/-- `cycle()`: one batch of up to 8 elements, then the completion check. -/
def GPU.cycle (g : GPU) : GPU :=
  if ¬ g.busy ∨ g.currentOp = none then g
  else
    let op := g.currentOp.getD ""
    let g1 := GPU.cycleCores op GPU_CORE_COUNT 0 g
    let g2 := { g1 with
      currentCoreIndex := g1.currentCoreIndex + (GPU_CORE_COUNT : Int)
      cyclesRemaining := g1.cyclesRemaining - 1 }
    if g2.cyclesRemaining ≤ 0 ∨ g2.currentCoreIndex ≥ g2.length then
      { g2 with busy := false, cores := g2.cores.map fun c => { c with busy := false } }
    else g2

/-- The CPU's `GWAIT` loop `while (gpu.isBusy()) gpu.cycle()`, run for a
bounded number of iterations. -/
def GPU.drainFuel : Nat → GPU → GPU
  | 0, g => g
  | n + 1, g => if g.busy then GPU.drainFuel n g.cycle else g

/-- Synchronous drain.  Whenever `busy` holds an operation is installed and
each `cycle` decrements `cyclesRemaining`, clearing `busy` once it reaches
zero, so `cyclesRemaining + 1` iterations always suffice; on the unreachable
states with `busy` but no installed operation the JS loop would spin
forever. -/
def GPU.drain (g : GPU) : GPU := GPU.drainFuel (g.cyclesRemaining.toNat + 1) g

def GPU.writeVRAM (g : GPU) (addr value : Int) : GPU :=
  { g with vram := idxSet g.vram (addr % (VRAM_SIZE : Int)) (mask16 value) }

def GPU.readVRAM (g : GPU) (addr : Int) : Int :=
  idxGet g.vram (addr % (VRAM_SIZE : Int))

/-! ### Phase-stepped compute-unit variant

The repository also contains a phase-stepped GPU engine (decode / fetch /
execute / writeback micro-stages with a `pendingOp` queue).  Claim C5 cites
its `startOperation` as well, so exactly that method and the state it
touches are embedded here. -/

structure PendingOp where
  op : String
  srcAddr : Int
  dstAddr : Int
  length : Int
  scalar : Int
  deriving DecidableEq, Repr, Inhabited

structure GPUPhased where
  busy : Bool
  /-- `'idle' | 'decode' | 'fetch' | 'execute' | 'writeback'` -/
  currentStage : String
  pendingOp : Option PendingOp
  deriving DecidableEq, Repr, Inhabited

/-- The phase-stepped `startOperation`: unconditionally overwrites any queued
descriptor (again no busy check). -/
def GPUPhased.startOperation (g : GPUPhased) (op : String)
    (srcAddr dstAddr len scalar : Int) : GPUPhased :=
  { g with
    pendingOp := some { op := op, srcAddr := srcAddr, dstAddr := dstAddr
                        length := len, scalar := scalar }
    busy := true
    currentStage := "idle" }

/-! ## CPU engine (`src/cpu/cpu.ts`): parsing helpers and flags -/

def REGISTER_COUNT : Nat := 8
def MEMORY_SIZE : Nat := 256
def STACK_START : Int := 0xFF

/-- The label table; `Record<string, number>` with unique keys. -/
abbrev Labels := List (String × Int)

/-! String primitives are re-implemented by structural recursion on the
character list so that every definition evaluates inside the kernel
(`String.split`, `trim`, `toUpper`, ... are well-founded recursions the
kernel cannot unfold). -/

/-- `toUpperCase()` (ASCII, as all opcodes are). -/
def toUpperStr (s : String) : String := String.mk (s.toList.map Char.toUpper)

/-- `trim()`. -/
def trimStr (s : String) : String :=
  String.mk (((s.toList.dropWhile Char.isWhitespace).reverse.dropWhile
    Char.isWhitespace).reverse)

/-- Split on a predicate, dropping empty pieces:
`s.split(/[\s,]+/).filter((p) => p)` fused. -/
def splitPartsAux (p : Char → Bool) : List Char → List Char → List String
  | [], cur => if cur.isEmpty then [] else [String.mk cur.reverse]
  | c :: rest, cur =>
    if p c then
      if cur.isEmpty then splitPartsAux p rest []
      else String.mk cur.reverse :: splitPartsAux p rest []
    else splitPartsAux p rest (c :: cur)

/-- `instruction.split(/[\s,]+/).filter((p) => p)`. -/
def splitParts (s : String) : List String :=
  splitPartsAux (fun c => c.isWhitespace || c == ',') s.toList []

/-- Split on one character, keeping empty pieces (JS `split(c)`). -/
def splitOnCharAux (sep : Char) : List Char → List Char → List String
  | [], cur => [String.mk cur.reverse]
  | c :: rest, cur =>
    if c == sep then String.mk cur.reverse :: splitOnCharAux sep rest []
    else splitOnCharAux sep rest (c :: cur)

def splitOnChar (sep : Char) (s : String) : List String :=
  splitOnCharAux sep s.toList []

/-- `/^R\d$/i.test(val)` (also `isRegister`). -/
def isRegisterTok (s : String) : Bool :=
  match s.toList with
  | [c0, c1] => (c0 == 'R' || c0 == 'r') && c1.isDigit
  | _ => false

/-- `getRegisterIndex`: digit after `R`, must be `< REGISTER_COUNT`. -/
def getRegisterIndex (reg : String) : Except String Nat :=
  match reg.toList with
  | [c0, c1] =>
    if (c0 == 'R' || c0 == 'r') && c1.isDigit then
      let idx := c1.toNat - '0'.toNat
      if idx < REGISTER_COUNT then .ok idx
      else .error ("Invalid register: " ++ reg)
    else .error ("Invalid register: " ++ reg)
  | _ => .error ("Invalid register: " ++ reg)

/-- `/^0x[0-9A-Fa-f]+$/.test(val)`. -/
def isHexLiteral (s : String) : Bool :=
  match s.toList with
  | '0' :: 'x' :: rest => !rest.isEmpty && rest.all fun c =>
      c.isDigit || ('a' ≤ c && c ≤ 'f') || ('A' ≤ c && c ≤ 'F')
  | _ => false

def hexDigitVal (c : Char) : Int :=
  if c.isDigit then (c.toNat : Int) - 48
  else if 'a' ≤ c && c ≤ 'f' then (c.toNat : Int) - 87
  else (c.toNat : Int) - 55

/-- `parseInt(val, 16)` on a checked `0x...` literal. -/
def parseHex (s : String) : Int :=
  (s.toList.drop 2).foldl (fun acc c => 16 * acc + hexDigitVal c) 0

/-- `/^-?\d+$/.test(val)`. -/
def isDecLiteral (s : String) : Bool :=
  match s.toList with
  | '-' :: rest => !rest.isEmpty && rest.all Char.isDigit
  | l => !l.isEmpty && l.all Char.isDigit

/-- `parseInt(val, 10)` on a checked decimal literal. -/
def parseDec (s : String) : Int :=
  match s.toList with
  | '-' :: rest => -(rest.foldl (fun acc c => 10 * acc + ((c.toNat : Int) - 48)) 0)
  | l => l.foldl (fun acc c => 10 * acc + ((c.toNat : Int) - 48)) 0

/-- `parseValue(val)`: register, hex literal, decimal literal, or label, in
that order; anything else throws `Invalid value`.  A JS `undefined` operand
(missing token) is embedded as `""`, which throws on the same path the
`undefined` does. -/
def parseValue (labels : Labels) (registers : List Int) (val : String) : Except String Int :=
  let val := trimStr val
  if isRegisterTok val then
    match getRegisterIndex val with
    | .ok i => .ok (registers.getD i 0)
    | .error e => .error e
  else if isHexLiteral val then .ok (parseHex val)
  else if isDecLiteral val then .ok (parseDec val)
  else
    match labels.lookup val with
    | some v => .ok v
    | none => .error ("Invalid value: " ++ val)

structure CPUFlags where
  zero : Bool
  negative : Bool
  carry : Bool
  deriving DecidableEq, Repr, Inhabited

/-- `setFlags(value)`. -/
def flagsOf (value : Int) : CPUFlags :=
  { zero := decide (value = 0)
    negative := decide (value < 0) || decide (jsAnd value 0x8000 ≠ 0)
    carry := decide (value > 0xffff) || decide (value < 0) }

/-- The authoritative mutable CPU state read and written by
`executeInstruction` (registers, memory, pc, sp, flags, halted, cycles,
and the attached GPU). -/
structure ExecState where
  registers : List Int
  memory : List Int
  pc : Int
  sp : Int
  flags : CPUFlags
  halted : Bool
  cycles : Int
  gpu : Option GPU
  deriving DecidableEq, Repr, Inhabited

inductive CycleStage where
  | idle | fetch | decode | execute | writeback
  deriving DecidableEq, Repr, Inhabited

structure MicroOp where
  stage : CycleStage
  description : String
  source : Option String := none
  destination : Option String := none
  value : Option Int := none
  operation : Option String := none
  deriving DecidableEq, Repr, Inhabited

/-! ## `generateMicroOps` -/

/-- `opSymbols[op]` for the binary ALU instructions. -/
def opSymbol (op : String) : String :=
  match op with
  | "ADD" => "+" | "SUB" => "-" | "MUL" => "×" | "DIV" => "÷" | "MOD" => "%"
  | "AND" => "&" | "OR" => "|" | "XOR" => "^" | _ => ""

/-- The raw (pre-mask) ALU result computed inside `generateMicroOps`'s
binary-instruction branch. -/
def aluRaw (op : String) (destVal srcVal : Int) : Int :=
  match op with
  | "ADD" => destVal + srcVal
  | "SUB" => destVal - srcVal
  | "MUL" => destVal * srcVal
  | "DIV" => jsFloorDiv destVal srcVal
  | "MOD" => jsRem destVal srcVal
  | "AND" => jsAnd destVal srcVal
  | "OR" => jsOr destVal srcVal
  | "XOR" => jsXor destVal srcVal
  | _ => 0

/-- `conditionMap[op]` for the conditional jumps. -/
def conditionMap (op : String) : String :=
  match op with
  | "JZ" => "Zero=1" | "JE" => "Zero=1"
  | "JNZ" => "Zero=0" | "JNE" => "Zero=0"
  | "JG" => "Zero=0 AND Neg=0"
  | "JGE" => "Neg=0"
  | "JL" => "Neg=1"
  | "JLE" => "Zero=1 OR Neg=1"
  | _ => ""

/-- The EXECUTE/WRITEBACK micro-operations of one instruction: the `switch`
body of `generateMicroOps`.  Errors are exceptions thrown by `parseValue` /
`getRegisterIndex` while the micro-ops are being generated. -/
def genExecOps (labels : Labels) (es : ExecState) (parts : List String) (op : String) :
    Except String (List MicroOp) :=
  let p1 := parts.getD 1 ""
  let p2 := parts.getD 2 ""
  match op with
  | "MOV" =>
    match parseValue labels es.registers p2 with
    | .error e => .error e
    | .ok v =>
      .ok [if isRegisterTok p2 then
             { stage := .execute, description := "Read " ++ p2
               source := some p2, destination := some "ALU", value := some v }
           else
             { stage := .execute, description := "Load immediate " ++ p2
               source := some "Immediate", destination := some "ALU", value := some v },
           { stage := .writeback, description := "Write to " ++ p1
             source := some "ALU", destination := some p1, value := some (mask16 v) }]
  | "ADD" | "SUB" | "MUL" | "DIV" | "MOD" | "AND" | "OR" | "XOR" =>
    match getRegisterIndex p1 with
    | .error e => .error e
    | .ok di =>
      let destVal := es.registers.getD di 0
      match parseValue labels es.registers p2 with
      | .error e => .error e
      | .ok srcVal =>
        let result := aluRaw op destVal srcVal
        .ok [{ stage := .execute, description := "Read " ++ p1 ++ " → ALU A"
               source := some p1, destination := some "ALU.A", value := some destVal },
             { stage := .execute
               description := (if isRegisterTok p2 then "Read " else "Load ") ++ p2 ++ " → ALU B"
               source := some (if isRegisterTok p2 then p2 else "Immediate")
               destination := some "ALU.B", value := some srcVal },
             { stage := .execute
               description := "ALU: " ++ toString destVal ++ " " ++ opSymbol op ++ " " ++
                 toString srcVal ++ " = " ++ toString (mask16 result)
               source := some "ALU", operation := some op, value := some (mask16 result) },
             { stage := .writeback, description := "Write result to " ++ p1
               source := some "ALU", destination := some p1, value := some (mask16 result) }]
  | "INC" | "DEC" =>
    match getRegisterIndex p1 with
    | .error e => .error e
    | .ok di =>
      let destVal := es.registers.getD di 0
      let result := if op = "INC" then destVal + 1 else destVal - 1
      .ok [{ stage := .execute, description := "Read " ++ p1 ++ " → ALU"
             source := some p1, destination := some "ALU", value := some destVal },
           { stage := .execute
             description := "ALU: " ++ toString destVal ++ " " ++
               (if op = "INC" then "+" else "-") ++ " 1 = " ++ toString (mask16 result)
             source := some "ALU", operation := some op, value := some (mask16 result) },
           { stage := .writeback, description := "Write result to " ++ p1
             source := some "ALU", destination := some p1, value := some (mask16 result) }]
  | "NOT" =>
    match getRegisterIndex p1 with
    | .error e => .error e
    | .ok di =>
      let destVal := es.registers.getD di 0
      let result := mask16 (jsNot destVal)
      .ok [{ stage := .execute, description := "Read " ++ p1 ++ " → ALU"
             source := some p1, destination := some "ALU", value := some destVal },
           { stage := .execute
             description := "ALU: NOT " ++ toString destVal ++ " = " ++ toString result
             source := some "ALU", operation := some "NOT", value := some result },
           { stage := .writeback, description := "Write result to " ++ p1
             source := some "ALU", destination := some p1, value := some result }]
  | "SHL" | "SHR" =>
    match parseValue labels es.registers p2 with
    | .error e => .error e
    | .ok amt =>
      match getRegisterIndex p1 with
      | .error e => .error e
      | .ok di =>
        let destVal := es.registers.getD di 0
        let result := if op = "SHL" then mask16 (jsShl destVal amt) else jsShrU destVal amt
        .ok [{ stage := .execute, description := "Read " ++ p1 ++ " → ALU"
               source := some p1, destination := some "ALU", value := some destVal },
             { stage := .execute
               description := "ALU: " ++ toString destVal ++ " " ++
                 (if op = "SHL" then "<<" else ">>") ++ " " ++ toString amt ++ " = " ++
                 toString result
               source := some "ALU", operation := some op, value := some result },
             { stage := .writeback, description := "Write result to " ++ p1
               source := some "ALU", destination := some p1, value := some result }]
  | "CMP" =>
    match parseValue labels es.registers p1 with
    | .error e => .error e
    | .ok a =>
      match parseValue labels es.registers p2 with
      | .error e => .error e
      | .ok b =>
        .ok [{ stage := .execute, description := "Load " ++ p1 ++ " → ALU A"
               source := some (if isRegisterTok p1 then p1 else "Immediate")
               destination := some "ALU.A", value := some a },
             { stage := .execute, description := "Load " ++ p2 ++ " → ALU B"
               source := some (if isRegisterTok p2 then p2 else "Immediate")
               destination := some "ALU.B", value := some b },
             { stage := .execute
               description := "ALU: Compare " ++ toString a ++ " - " ++ toString b ++
                 " = " ++ toString (a - b) ++ " → Update flags"
               source := some "ALU", operation := some "CMP", destination := some "Flags" }]
  | "JMP" =>
    match parseValue labels es.registers p1 with
    | .error e => .error e
    | .ok target =>
      .ok [{ stage := .execute, description := "Load target address: " ++ toString target
             source := some "Immediate", destination := some "PC", value := some target }]
  | "JZ" | "JE" | "JNZ" | "JNE" | "JG" | "JGE" | "JL" | "JLE" =>
    match parseValue labels es.registers p1 with
    | .error e => .error e
    | .ok target =>
      .ok [{ stage := .execute, description := "Check condition: " ++ conditionMap op
             source := some "Flags", operation := some op },
           { stage := .execute, description := "Target address: " ++ toString target
             destination := some "PC (conditional)", value := some target }]
  | "LOAD" =>
    match parseValue labels es.registers p2 with
    | .error e => .error e
    | .ok addr =>
      let value := idxGet es.memory (mask8 addr)
      .ok [{ stage := .execute, description := "Calculate address: " ++ toString addr
             source := some "Immediate", destination := some "MAR", value := some addr },
           { stage := .execute
             description := "Read Memory[" ++ toString addr ++ "] = " ++ toString value
             source := some ("Memory[" ++ toString addr ++ "]")
             destination := some "MDR", value := some value },
           { stage := .writeback, description := "Write to " ++ p1
             source := some "MDR", destination := some p1, value := some value }]
  | "STORE" =>
    match parseValue labels es.registers p1 with
    | .error e => .error e
    | .ok addr =>
      match parseValue labels es.registers p2 with
      | .error e => .error e
      | .ok value =>
        .ok [{ stage := .execute, description := "Calculate address: " ++ toString addr
               source := some "Immediate", destination := some "MAR", value := some addr },
             { stage := .execute, description := "Load value: " ++ toString value
               source := some (if isRegisterTok p2 then p2 else "Immediate")
               destination := some "MDR", value := some value },
             { stage := .writeback
               description := "Write " ++ toString value ++ " → Memory[" ++ toString addr ++ "]"
               source := some "MDR", destination := some ("Memory[" ++ toString addr ++ "]")
               value := some value }]
  | "PUSH" =>
    match parseValue labels es.registers p1 with
    | .error e => .error e
    | .ok value =>
      .ok [{ stage := .execute, description := "Read SP = " ++ toString es.sp
             source := some "SP", destination := some "MAR", value := some es.sp },
           { stage := .execute, description := "Load value: " ++ toString value
             source := some (if isRegisterTok p1 then p1 else "Immediate")
             destination := some "MDR", value := some value },
           { stage := .writeback
             description := "Write " ++ toString value ++ " → Memory[" ++ toString es.sp ++ "]"
             source := some "MDR", destination := some ("Memory[" ++ toString es.sp ++ "]")
             value := some value },
           { stage := .writeback
             description := "Decrement SP: " ++ toString es.sp ++ " → " ++
               toString (mask8 (es.sp - 1))
             source := some "ALU", destination := some "SP"
             value := some (mask8 (es.sp - 1)) }]
  | "POP" =>
    let newSp := mask8 (es.sp + 1)
    let value := idxGet es.memory newSp
    .ok [{ stage := .execute
           description := "Increment SP: " ++ toString es.sp ++ " → " ++ toString newSp
           source := some "SP", destination := some "SP", value := some newSp },
         { stage := .execute
           description := "Read Memory[" ++ toString newSp ++ "] = " ++ toString value
           source := some ("Memory[" ++ toString newSp ++ "]")
           destination := some "MDR", value := some value },
         { stage := .writeback, description := "Write to " ++ p1
           source := some "MDR", destination := some p1, value := some value }]
  | "CALL" =>
    match parseValue labels es.registers p1 with
    | .error e => .error e
    | .ok target =>
      .ok [{ stage := .execute
             description := "Save return address: " ++ toString (es.pc + 1)
             source := some "PC+1", destination := some ("Memory[" ++ toString es.sp ++ "]")
             value := some (es.pc + 1) },
           { stage := .execute
             description := "Decrement SP: " ++ toString es.sp ++ " → " ++
               toString (mask8 (es.sp - 1))
             destination := some "SP", value := some (mask8 (es.sp - 1)) },
           { stage := .writeback, description := "Jump to " ++ toString target
             destination := some "PC", value := some target }]
  | "RET" =>
    let newSp := mask8 (es.sp + 1)
    let returnAddr := idxGet es.memory newSp
    .ok [{ stage := .execute
           description := "Increment SP: " ++ toString es.sp ++ " → " ++ toString newSp
           destination := some "SP", value := some newSp },
         { stage := .execute
           description := "Read return address: " ++ toString returnAddr
           source := some ("Memory[" ++ toString newSp ++ "]")
           destination := some "PC", value := some returnAddr }]
  | "NOP" =>
    .ok [{ stage := .execute, description := "No operation", operation := some "NOP" }]
  | "HALT" | "HLT" =>
    .ok [{ stage := .execute, description := "Halt CPU", operation := some "HALT" }]
  | "GLOAD" =>
    match parseValue labels es.registers p1 with
    | .error e => .error e
    | .ok vramAddr =>
      match parseValue labels es.registers p2 with
      | .error e => .error e
      | .ok cpuAddr =>
        match parseValue labels es.registers (parts.getD 3 "") with
        | .error e => .error e
        | .ok len =>
          .ok [{ stage := .execute
                 description := "GPU: Load " ++ toString len ++ " values from CPU[" ++
                   toString cpuAddr ++ "] to VRAM[" ++ toString vramAddr ++ "]"
                 source := some ("CPU Memory[" ++ toString cpuAddr ++ "]")
                 destination := some ("VRAM[" ++ toString vramAddr ++ "]")
                 operation := some "GLOAD" }]
  | "GSTORE" =>
    match parseValue labels es.registers p1 with
    | .error e => .error e
    | .ok cpuAddr =>
      match parseValue labels es.registers p2 with
      | .error e => .error e
      | .ok vramAddr =>
        match parseValue labels es.registers (parts.getD 3 "") with
        | .error e => .error e
        | .ok len =>
          .ok [{ stage := .execute
                 description := "GPU: Store " ++ toString len ++ " values from VRAM[" ++
                   toString vramAddr ++ "] to CPU[" ++ toString cpuAddr ++ "]"
                 source := some ("VRAM[" ++ toString vramAddr ++ "]")
                 destination := some ("CPU Memory[" ++ toString cpuAddr ++ "]")
                 operation := some "GSTORE" }]
  | "GEXEC" =>
    let gpuOp := toUpperStr p1
    match parseValue labels es.registers p2 with
    | .error e => .error e
    | .ok srcAddr =>
      match parseValue labels es.registers (parts.getD 3 "") with
      | .error e => .error e
      | .ok dstAddr =>
        match parseValue labels es.registers (parts.getD 4 "") with
        | .error e => .error e
        | .ok len =>
          .ok [{ stage := .execute
                 description := "GPU: Execute " ++ gpuOp ++ " on " ++ toString len ++
                   " elements (parallel)"
                 source := some ("VRAM[" ++ toString srcAddr ++ "]")
                 destination := some ("VRAM[" ++ toString dstAddr ++ "]")
                 operation := some gpuOp }]
  | "GWAIT" =>
    .ok [{ stage := .execute, description := "GPU: Wait for operation to complete"
           operation := some "GWAIT" }]
  | "GRESULT" =>
    .ok [{ stage := .execute, description := "GPU: Read result into " ++ p1
           source := some "GPU Result", destination := some p1
           operation := some "GRESULT" }]
  | "GWRITE" =>
    match parseValue labels es.registers p1 with
    | .error e => .error e
    | .ok addr =>
      match parseValue labels es.registers p2 with
      | .error e => .error e
      | .ok value =>
        .ok [{ stage := .execute
               description := "GPU: Write " ++ toString value ++ " to VRAM[" ++
                 toString addr ++ "]"
               destination := some ("VRAM[" ++ toString addr ++ "]")
               value := some value, operation := some "GWRITE" }]
  | "GREAD" =>
    match parseValue labels es.registers p2 with
    | .error e => .error e
    | .ok addr =>
      .ok [{ stage := .execute
             description := "GPU: Read VRAM[" ++ toString addr ++ "] into " ++ p1
             source := some ("VRAM[" ++ toString addr ++ "]")
             destination := some p1, operation := some "GREAD" }]
  | _ =>
    .ok [{ stage := .execute, description := "Unknown: " ++ op, operation := some op }]

/-- `generateMicroOps(instruction)`: the unconditional FETCH and DECODE
micro-ops followed by the per-instruction EXECUTE/WRITEBACK ops.  On a blank
instruction `parts[0]!` is `undefined` in JS and `.toUpperCase()` throws a
`TypeError`; that is the error value of the empty-parts branch. -/
def generateMicroOps (labels : Labels) (es : ExecState) (instruction : String) :
    Except String (List MicroOp) :=
  let parts := splitParts instruction
  match parts.head? with
  | none => .error "TypeError: Cannot read properties of undefined"
  | some p0 =>
    let op := toUpperStr p0
    match genExecOps labels es parts op with
    | .error e => .error e
    | .ok rest =>
      .ok ({ stage := .fetch
             description := "Fetch instruction from memory[" ++ toString es.pc ++ "]"
             source := some ("Memory[" ++ toString es.pc ++ "]")
             destination := some "IR" } ::
           { stage := .decode, description := "Decode: " ++ op
             operation := some op } :: rest)

/-! ## `executeInstruction` -/

/-- How one `switch` branch of `executeInstruction` ends: fall through to
`this.pc++`, `return` early (the jump instructions), or throw.  In every
branch of the source all possible throws happen before any mutation, so a
thrown branch leaves the state as it was after `this.cycles++`. -/
inductive ExecOutcome where
  | fallthrough (es : ExecState)
  | jumped (es : ExecState)
  | thrown (msg : String)
  deriving DecidableEq, Repr, Inhabited

/-- The `switch (op)` body of `executeInstruction`, acting on the state
`esb` in which `this.cycles++` has already happened. -/
def execSwitch (labels : Labels) (esb : ExecState) (parts : List String) (op : String) :
    ExecOutcome :=
  let p1 := parts.getD 1 ""
  let p2 := parts.getD 2 ""
  match op with
  | "MOV" =>
    match getRegisterIndex p1 with
    | .error e => .thrown e
    | .ok di =>
      match parseValue labels esb.registers p2 with
      | .error e => .thrown e
      | .ok v => .fallthrough { esb with registers := esb.registers.set di (mask16 v) }
  | "ADD" =>
    match getRegisterIndex p1 with
    | .error e => .thrown e
    | .ok di =>
      match parseValue labels esb.registers p2 with
      | .error e => .thrown e
      | .ok v =>
        let result := esb.registers.getD di 0 + v
        .fallthrough { esb with registers := esb.registers.set di (mask16 result)
                                flags := flagsOf result }
  | "SUB" =>
    match getRegisterIndex p1 with
    | .error e => .thrown e
    | .ok di =>
      match parseValue labels esb.registers p2 with
      | .error e => .thrown e
      | .ok v =>
        let result := esb.registers.getD di 0 - v
        .fallthrough { esb with registers := esb.registers.set di (mask16 result)
                                flags := flagsOf result }
  | "MUL" =>
    match getRegisterIndex p1 with
    | .error e => .thrown e
    | .ok di =>
      match parseValue labels esb.registers p2 with
      | .error e => .thrown e
      | .ok v =>
        let result := esb.registers.getD di 0 * v
        .fallthrough { esb with registers := esb.registers.set di (mask16 result)
                                flags := flagsOf result }
  | "DIV" =>
    match getRegisterIndex p1 with
    | .error e => .thrown e
    | .ok di =>
      match parseValue labels esb.registers p2 with
      | .error e => .thrown e
      | .ok v =>
        if v = 0 then .thrown "Division by zero"
        else
          let result := jsFloorDiv (esb.registers.getD di 0) v
          .fallthrough { esb with registers := esb.registers.set di (mask16 result)
                                  flags := flagsOf result }
  | "MOD" =>
    match getRegisterIndex p1 with
    | .error e => .thrown e
    | .ok di =>
      match parseValue labels esb.registers p2 with
      | .error e => .thrown e
      | .ok v =>
        if v = 0 then .thrown "Division by zero"
        else
          let result := jsRem (esb.registers.getD di 0) v
          .fallthrough { esb with registers := esb.registers.set di (mask16 result)
                                  flags := flagsOf result }
  | "AND" =>
    match getRegisterIndex p1 with
    | .error e => .thrown e
    | .ok di =>
      match parseValue labels esb.registers p2 with
      | .error e => .thrown e
      | .ok v =>
        let newVal := jsAnd (esb.registers.getD di 0) v
        .fallthrough { esb with registers := esb.registers.set di newVal
                                flags := flagsOf newVal }
  | "OR" =>
    match getRegisterIndex p1 with
    | .error e => .thrown e
    | .ok di =>
      match parseValue labels esb.registers p2 with
      | .error e => .thrown e
      | .ok v =>
        let newVal := jsOr (esb.registers.getD di 0) v
        .fallthrough { esb with registers := esb.registers.set di newVal
                                flags := flagsOf newVal }
  | "XOR" =>
    match getRegisterIndex p1 with
    | .error e => .thrown e
    | .ok di =>
      match parseValue labels esb.registers p2 with
      | .error e => .thrown e
      | .ok v =>
        let newVal := jsXor (esb.registers.getD di 0) v
        .fallthrough { esb with registers := esb.registers.set di newVal
                                flags := flagsOf newVal }
  | "NOT" =>
    match getRegisterIndex p1 with
    | .error e => .thrown e
    | .ok di =>
      let newVal := mask16 (jsNot (esb.registers.getD di 0))
      .fallthrough { esb with registers := esb.registers.set di newVal
                              flags := flagsOf newVal }
  | "SHL" =>
    match getRegisterIndex p1 with
    | .error e => .thrown e
    | .ok di =>
      match parseValue labels esb.registers p2 with
      | .error e => .thrown e
      | .ok v =>
        let newVal := mask16 (jsShl (esb.registers.getD di 0) v)
        .fallthrough { esb with registers := esb.registers.set di newVal
                                flags := flagsOf newVal }
  | "SHR" =>
    match getRegisterIndex p1 with
    | .error e => .thrown e
    | .ok di =>
      match parseValue labels esb.registers p2 with
      | .error e => .thrown e
      | .ok v =>
        let newVal := jsShrU (esb.registers.getD di 0) v
        .fallthrough { esb with registers := esb.registers.set di newVal
                                flags := flagsOf newVal }
  | "INC" =>
    match getRegisterIndex p1 with
    | .error e => .thrown e
    | .ok di =>
      let result := esb.registers.getD di 0 + 1
      .fallthrough { esb with registers := esb.registers.set di (mask16 result)
                              flags := flagsOf result }
  | "DEC" =>
    match getRegisterIndex p1 with
    | .error e => .thrown e
    | .ok di =>
      let result := esb.registers.getD di 0 - 1
      .fallthrough { esb with registers := esb.registers.set di (mask16 result)
                              flags := flagsOf result }
  | "CMP" =>
    match parseValue labels esb.registers p1 with
    | .error e => .thrown e
    | .ok a =>
      match parseValue labels esb.registers p2 with
      | .error e => .thrown e
      | .ok b => .fallthrough { esb with flags := flagsOf (a - b) }
  | "JMP" =>
    match parseValue labels esb.registers p1 with
    | .error e => .thrown e
    | .ok target => .jumped { esb with pc := target }
  | "JZ" | "JE" =>
    if esb.flags.zero then
      match parseValue labels esb.registers p1 with
      | .error e => .thrown e
      | .ok target => .jumped { esb with pc := target }
    else .fallthrough esb
  | "JNZ" | "JNE" =>
    if ¬ esb.flags.zero then
      match parseValue labels esb.registers p1 with
      | .error e => .thrown e
      | .ok target => .jumped { esb with pc := target }
    else .fallthrough esb
  | "JG" =>
    if ¬ esb.flags.zero ∧ ¬ esb.flags.negative then
      match parseValue labels esb.registers p1 with
      | .error e => .thrown e
      | .ok target => .jumped { esb with pc := target }
    else .fallthrough esb
  | "JGE" =>
    if ¬ esb.flags.negative then
      match parseValue labels esb.registers p1 with
      | .error e => .thrown e
      | .ok target => .jumped { esb with pc := target }
    else .fallthrough esb
  | "JL" =>
    if esb.flags.negative then
      match parseValue labels esb.registers p1 with
      | .error e => .thrown e
      | .ok target => .jumped { esb with pc := target }
    else .fallthrough esb
  | "JLE" =>
    if esb.flags.zero ∨ esb.flags.negative then
      match parseValue labels esb.registers p1 with
      | .error e => .thrown e
      | .ok target => .jumped { esb with pc := target }
    else .fallthrough esb
  | "LOAD" =>
    match getRegisterIndex p1 with
    | .error e => .thrown e
    | .ok di =>
      match parseValue labels esb.registers p2 with
      | .error e => .thrown e
      | .ok addr =>
        .fallthrough { esb with
          registers := esb.registers.set di (idxGet esb.memory (mask8 addr)) }
  | "STORE" =>
    match parseValue labels esb.registers p1 with
    | .error e => .thrown e
    | .ok addr =>
      match parseValue labels esb.registers p2 with
      | .error e => .thrown e
      | .ok v =>
        .fallthrough { esb with memory := idxSet esb.memory (mask8 addr) (mask16 v) }
  | "PUSH" =>
    match parseValue labels esb.registers p1 with
    | .error e => .thrown e
    | .ok v =>
      -- the pushed value is stored unmasked
      .fallthrough { esb with memory := idxSet esb.memory esb.sp v
                              sp := mask8 (esb.sp - 1) }
  | "POP" =>
    match getRegisterIndex p1 with
    | .error e => .thrown e
    | .ok di =>
      let newSp := mask8 (esb.sp + 1)
      -- the popped value is copied into the register unmasked
      .fallthrough { esb with sp := newSp
                              registers := esb.registers.set di (idxGet esb.memory newSp) }
  | "CALL" =>
    match parseValue labels esb.registers p1 with
    | .error e => .thrown e
    | .ok target =>
      .jumped { esb with memory := idxSet esb.memory esb.sp (esb.pc + 1)
                         sp := mask8 (esb.sp - 1)
                         pc := target }
  | "RET" =>
    let newSp := mask8 (esb.sp + 1)
    .jumped { esb with sp := newSp, pc := idxGet esb.memory newSp }
  | "NOP" => .fallthrough esb
  | "HALT" | "HLT" => .fallthrough { esb with halted := true }
  | "GLOAD" =>
    match esb.gpu with
    | none => .thrown "GPU not available"
    | some gpu =>
      match parseValue labels esb.registers p1 with
      | .error e => .thrown e
      | .ok vramAddr =>
        match parseValue labels esb.registers p2 with
        | .error e => .thrown e
        | .ok cpuAddr =>
          match parseValue labels esb.registers (parts.getD 3 "") with
          | .error e => .thrown e
          | .ok len =>
            .fallthrough { esb with
              gpu := some (gpu.loadToVRAM esb.memory cpuAddr vramAddr len) }
  | "GSTORE" =>
    match esb.gpu with
    | none => .thrown "GPU not available"
    | some gpu =>
      match parseValue labels esb.registers p1 with
      | .error e => .thrown e
      | .ok cpuAddr =>
        match parseValue labels esb.registers p2 with
        | .error e => .thrown e
        | .ok vramAddr =>
          match parseValue labels esb.registers (parts.getD 3 "") with
          | .error e => .thrown e
          | .ok len =>
            .fallthrough { esb with
              memory := gpu.storeFromVRAM esb.memory vramAddr cpuAddr len }
  | "GEXEC" =>
    match esb.gpu with
    | none => .thrown "GPU not available"
    | some gpu =>
      let gpuOp := toUpperStr p1
      match parseValue labels esb.registers p2 with
      | .error e => .thrown e
      | .ok srcAddr =>
        match parseValue labels esb.registers (parts.getD 3 "") with
        | .error e => .thrown e
        | .ok dstAddr =>
          match parseValue labels esb.registers (parts.getD 4 "") with
          | .error e => .thrown e
          | .ok len =>
            match (match parts.get? 5 with
                   | some s => parseValue labels esb.registers s
                   | none => .ok 0) with
            | .error e => .thrown e
            | .ok scalar =>
              .fallthrough { esb with
                gpu := some (gpu.startOperation gpuOp srcAddr dstAddr len scalar) }
  | "GWAIT" =>
    match esb.gpu with
    | none => .thrown "GPU not available"
    | some gpu => .fallthrough { esb with gpu := some gpu.drain }
  | "GRESULT" =>
    match esb.gpu with
    | none => .thrown "GPU not available"
    | some gpu =>
      match getRegisterIndex p1 with
      | .error e => .thrown e
      | .ok di =>
        -- the GPU result is copied into the register unmasked
        .fallthrough { esb with registers := esb.registers.set di gpu.getResult }
  | "GWRITE" =>
    match esb.gpu with
    | none => .thrown "GPU not available"
    | some gpu =>
      match parseValue labels esb.registers p1 with
      | .error e => .thrown e
      | .ok addr =>
        match parseValue labels esb.registers p2 with
        | .error e => .thrown e
        | .ok v => .fallthrough { esb with gpu := some (gpu.writeVRAM addr v) }
  | "GREAD" =>
    match esb.gpu with
    | none => .thrown "GPU not available"
    | some gpu =>
      match getRegisterIndex p1 with
      | .error e => .thrown e
      | .ok di =>
        match parseValue labels esb.registers p2 with
        | .error e => .thrown e
        | .ok addr =>
          .fallthrough { esb with registers := esb.registers.set di (gpu.readVRAM addr) }
  | _ => .thrown ("Unknown instruction: " ++ op)

/-- `executeInstruction(instruction)`: split, uppercase the opcode,
`this.cycles++`, run the switch, and `this.pc++` unless the branch
`return`ed.  The `Option String` is a thrown exception (to be caught, or
not, by the caller). -/
def executeInstruction (labels : Labels) (es : ExecState) (instruction : String) :
    ExecState × Option String :=
  let parts := splitParts instruction
  match parts.head? with
  | none => (es, some "TypeError: Cannot read properties of undefined")
  | some p0 =>
    let op := toUpperStr p0
    let esb := { es with cycles := es.cycles + 1 }
    match execSwitch labels esb parts op with
    | .fallthrough es' => ({ es' with pc := es'.pc + 1 }, none)
    | .jumped es' => (es', none)
    | .thrown msg => (esb, some msg)

/-! ## The CPU machine, its event stream, `microStep` and `step`

Events carry full state snapshots in the source; the snapshots are
defensive copies for display and are reconstructible from the returned
machine, so the embedded events carry only the data the spec's claims
talk about (tag, instruction, changed registers, error message). -/

structure CPU where
  exec : ExecState
  program : List String
  labels : Labels
  previousRegisters : List Int
  instructionRegister : String
  microOps : List MicroOp
  currentMicroOpIndex : Nat
  currentStage : CycleStage
  deriving DecidableEq, Repr, Inhabited

inductive CPUEvent where
  | reset
  | micro (instruction : String) (op : MicroOp)
  | step (instruction : String) (changedRegisters : List Nat)
  | halt
  | error (instruction : String) (message : String)
  deriving DecidableEq, Repr, Inhabited

/-- What a `step()` call does towards its caller: `return b`, or let an
exception thrown outside the `try` escape the method. -/
inductive StepResult where
  | ret (b : Bool)
  | thrown (msg : String)
  deriving DecidableEq, Repr, Inhabited

/-- The state established by `reset()` (a freshly constructed CPU);
`reset` does not clear an attached GPU reference. -/
def CPU.resetState (gpu : Option GPU) : CPU :=
  { exec :=
      { registers := List.replicate REGISTER_COUNT 0
        memory := List.replicate MEMORY_SIZE 0
        pc := 0
        sp := STACK_START
        flags := { zero := false, negative := false, carry := false }
        halted := false
        cycles := 0
        gpu := gpu }
    program := []
    labels := []
    previousRegisters := List.replicate REGISTER_COUNT 0
    instructionRegister := ""
    microOps := []
    currentMicroOpIndex := 0
    currentStage := .idle }

/-- `loadProgram(assembled)`: reset, then install instructions and labels. -/
def CPU.loadProgram (gpu : Option GPU) (instructions : List String) (labels : Labels) : CPU :=
  { CPU.resetState gpu with program := instructions, labels := labels }

/-- The changed-register list computed after `executeInstruction`. -/
def changedRegisters (prev cur : List Int) : List Nat :=
  (List.range REGISTER_COUNT).filter fun i => !(cur.getD i 0 == prev.getD i 0)

/-- `this.program[this.pc]!`; a negative pc fetches JS `undefined`,
embedded as `""` (both make `generateMicroOps` throw). -/
def CPU.fetchInstr (c : CPU) : String :=
  if c.exec.pc < 0 then "" else c.program.getD c.exec.pc.toNat ""

/-- The shared tail of `microStep` once the micro-op buffer holds the
current instruction: consume one micro-op, and execute the instruction if
it was the last one. -/
def CPU.microStepGo (c' : CPU) : CPU × List CPUEvent × Except String (Option MicroOp) :=
  let μ := c'.microOps.getD c'.currentMicroOpIndex default
  let c2 := { c' with currentStage := μ.stage
                      currentMicroOpIndex := c'.currentMicroOpIndex + 1 }
  let microEv := CPUEvent.micro c2.instructionRegister μ
  if c2.microOps.length ≤ c2.currentMicroOpIndex then
    let c3 := { c2 with previousRegisters := c2.exec.registers }
    match executeInstruction c3.labels c3.exec c3.instructionRegister with
    | (es', none) =>
      let changed := changedRegisters c3.previousRegisters es'.registers
      let c4 := { c3 with exec := es', currentStage := .idle
                          microOps := [], currentMicroOpIndex := 0 }
      (c4,
       [microEv, .step c3.instructionRegister changed] ++
         (if es'.halted then [.halt] else []),
       .ok (some μ))
    | (es', some msg) =>
      -- the error event is emitted, then `this.halted = true`
      ({ c3 with exec := { es' with halted := true } },
       [microEv, .error c3.instructionRegister msg], .ok (some μ))
  else (c2, [microEv], .ok (some μ))

/-- `microStep()`.  The `Except.error` result is an exception that escapes
the method: `generateMicroOps` runs outside the `try`/`catch`. -/
def CPU.microStep (c : CPU) : CPU × List CPUEvent × Except String (Option MicroOp) :=
  if c.exec.halted = true ∨ (c.program.length : Int) ≤ c.exec.pc then
    ({ c with exec.halted := true, currentStage := .idle }, [], .ok none)
  else if c.microOps.length ≤ c.currentMicroOpIndex then
    let instruction := c.fetchInstr
    match generateMicroOps c.labels c.exec instruction with
    | .error e => ({ c with instructionRegister := instruction }, [], .error e)
    | .ok l =>
      CPU.microStepGo { c with instructionRegister := instruction
                               microOps := l, currentMicroOpIndex := 0 }
  else CPU.microStepGo c

/-- `step()`.  `generateMicroOps` is called before the `try`, so its
exceptions escape as `StepResult.thrown`; exceptions from
`executeInstruction` are caught, emit one error event and halt the CPU. -/
def CPU.step (c : CPU) : CPU × List CPUEvent × StepResult :=
  if c.exec.halted = true ∨ (c.program.length : Int) ≤ c.exec.pc then
    ({ c with exec.halted := true }, [.halt], .ret false)
  else
    let instruction := c.fetchInstr
    let c1 := { c with previousRegisters := c.exec.registers
                       instructionRegister := instruction }
    match generateMicroOps c1.labels c1.exec instruction with
    | .error e => (c1, [], .thrown e)
    | .ok l =>
      let c2 := { c1 with microOps := l }
      match executeInstruction c2.labels c2.exec instruction with
      | (es', none) =>
        let changed := changedRegisters c2.previousRegisters es'.registers
        ({ c2 with exec := es', currentStage := .idle },
         [.step instruction changed], .ret (!es'.halted))
      | (es', some msg) =>
        ({ c2 with exec := { es' with halted := true } },
         [.error instruction msg], .ret false)

/-- `k` consecutive `microStep()` calls (states only). -/
def CPU.msIter : Nat → CPU → CPU
  | 0, c => c
  | k + 1, c => ((CPU.msIter k c).microStep).1

/-! ## Assembler (`src/assembler/assembler.ts`) -/

structure AssemblyError where
  line : Nat
  message : String
  deriving DecidableEq, Repr, Inhabited

structure AssembledProgram where
  instructions : List String
  labels : Labels
  sourceMap : List Nat
  deriving DecidableEq, Repr, Inhabited

structure AssemblyResult where
  success : Bool
  program : Option AssembledProgram
  errors : List AssemblyError
  deriving DecidableEq, Repr, Inhabited

def VALID_INSTRUCTIONS : List String :=
  ["MOV", "ADD", "SUB", "MUL", "DIV", "MOD",
   "AND", "OR", "XOR", "NOT", "SHL", "SHR",
   "INC", "DEC", "CMP",
   "JMP", "JZ", "JE", "JNZ", "JNE", "JG", "JGE", "JL", "JLE",
   "LOAD", "STORE", "PUSH", "POP",
   "CALL", "RET", "NOP", "HALT", "HLT",
   "GLOAD", "GSTORE", "GEXEC", "GWAIT", "GRESULT", "GWRITE", "GREAD"]

def GPU_OPERATIONS : List String :=
  ["VADD", "VSUB", "VMUL", "VDIV", "VSCALE",
   "VDOT", "VSUM", "VMAX", "VMIN",
   "VABS", "VSQRT", "VCOPY"]

/-- `line.split(';')[0]!.trim()`. -/
def stripComment (line : String) : String := trimStr ((splitOnChar ';' line).getD 0 "")

/-- `withoutComment.match(/^(\w+):(.*)$/)`: a maximal non-empty word-character
prefix immediately followed by `:`; returns the label name and the rest of
the line. -/
def labelSplit (s : String) : Option (String × String) :=
  let wp := s.toList.takeWhile fun c => c.isAlphanum || c == '_'
  if wp.isEmpty then none
  else
    match s.toList.drop wp.length with
    | ':' :: rest => some (String.mk wp, String.mk rest)
    | _ => none

structure Pass1State where
  instructionIndex : Nat
  labels : Labels
  cleanedLines : List (Nat × String)
  errors : List AssemblyError
  deriving DecidableEq, Repr, Inhabited

def Pass1State.initial : Pass1State :=
  { instructionIndex := 0, labels := [], cleanedLines := [], errors := [] }

/-- One iteration of the first pass over a source line (`lineNo` is the
1-based line number `i + 1`). -/
def pass1Step (acc : Pass1State) (lineNo : Nat) (line : String) : Pass1State :=
  let withoutComment := stripComment line
  if withoutComment = "" then acc
  else
    match labelSplit withoutComment with
    | some (labelName, afterColon) =>
      if (acc.labels.lookup labelName).isSome then
        { acc with errors := acc.errors ++ [⟨lineNo, "Duplicate label: " ++ labelName⟩] }
      else
        let acc1 := { acc with labels := acc.labels ++ [(labelName, (acc.instructionIndex : Int))] }
        let rest := trimStr afterColon
        if rest ≠ "" then
          { acc1 with cleanedLines := acc1.cleanedLines ++ [(lineNo, rest)]
                      instructionIndex := acc1.instructionIndex + 1 }
        else acc1
    | none =>
      { acc with cleanedLines := acc.cleanedLines ++ [(lineNo, withoutComment)]
                 instructionIndex := acc.instructionIndex + 1 }

/-- First pass: collect labels and cleaned instruction lines. -/
def pass1 (lines : List String) : Pass1State :=
  lines.enum.foldl (fun acc p => pass1Step acc (p.1 + 1) p.2) Pass1State.initial

inductive Expected where
  | exact (n : Nat)
  | range (lo hi : Nat)
  deriving DecidableEq, Repr, Inhabited

def getExpectedOperands (op : String) : Expected :=
  match op with
  | "NOP" | "RET" | "HALT" | "HLT" | "GWAIT" => .exact 0
  | "NOT" | "INC" | "DEC" | "JMP" | "JZ" | "JE" | "JNZ" | "JNE" | "JG" | "JGE"
  | "JL" | "JLE" | "CALL" | "PUSH" | "POP" | "GRESULT" => .exact 1
  | "GREAD" | "GWRITE" => .exact 2
  | "GLOAD" | "GSTORE" => .exact 3
  | "GEXEC" => .range 3 4
  | _ => .exact 2

def validateOperandCount (op : String) (count : Nat) : Bool :=
  match getExpectedOperands op with
  | .exact n => count == n
  | .range lo hi => lo ≤ count && count ≤ hi

/-- How JS prints `getExpectedOperands(op)` inside the error message
(a number, or an array as `lo,hi`). -/
def expectedStr (op : String) : String :=
  match getExpectedOperands op with
  | .exact n => toString n
  | .range lo hi => toString lo ++ "," ++ toString hi

/-- `/^(0x[0-9A-Fa-f]+|\d+|R\d)$/i.test(target)` (note the `i` flag also
admits an `0X` hex prefix here, unlike `parseValue`). -/
def isJumpTargetTok (s : String) : Bool :=
  (match s.toList with
   | '0' :: c :: rest => (c == 'x' || c == 'X') && !rest.isEmpty && rest.all fun d =>
       d.isDigit || ('a' ≤ d && d ≤ 'f') || ('A' ≤ d && d ≤ 'F')
   | _ => false) ||
  (!s.toList.isEmpty && s.toList.all Char.isDigit) ||
  isRegisterTok s

def JUMP_OPS : List String :=
  ["JMP", "JZ", "JE", "JNZ", "JNE", "JG", "JGE", "JL", "JLE", "CALL"]

/-- Second pass over one cleaned line: returns the new diagnostics in order
and whether the instruction is kept (unknown opcode and wrong operand count
`continue`; register / label / GPU-op diagnostics do not). -/
def pass2Line (labels : Labels) (lineNo : Nat) (content : String) :
    List AssemblyError × Bool :=
  let parts := splitParts content
  match parts.head? with
  | none => ([], false)
  | some h =>
    let op := toUpperStr h
    if ¬ op ∈ VALID_INSTRUCTIONS then
      ([⟨lineNo, "Unknown instruction: " ++ op⟩], false)
    else
      let operandCount := parts.length - 1
      if ¬ validateOperandCount op operandCount then
        ([⟨lineNo, "Invalid operand count for " ++ op ++ ": expected " ++ expectedStr op ++
            ", got " ++ toString operandCount⟩], false)
      else
        let regErrors := (parts.drop 1).filterMap fun part =>
          if isRegisterTok part ∧ 7 < (part.toList.getD 1 '0').toNat - '0'.toNat then
            some (⟨lineNo, "Invalid register: " ++ part ++ " (valid: R0-R7)"⟩ : AssemblyError)
          else none
        let labelErrors :=
          if op ∈ JUMP_OPS then
            let target := parts.getD 1 ""
            if ¬ isJumpTargetTok target ∧ (labels.lookup target).isNone then
              [(⟨lineNo, "Undefined label: " ++ target⟩ : AssemblyError)]
            else []
          else []
        let gpuErrors :=
          if op = "GEXEC" then
            match parts.get? 1 with
            | some s =>
              if ¬ toUpperStr s ∈ GPU_OPERATIONS then
                [(⟨lineNo, "Unknown GPU operation: " ++ toUpperStr s⟩ : AssemblyError)]
              else []
            | none => []
          else []
        (regErrors ++ labelErrors ++ gpuErrors, true)

/-- `assemble(code)`. -/
def assemble (code : String) : AssemblyResult :=
  let lines := splitOnChar '\n' code
  let p1 := pass1 lines
  let second := p1.cleanedLines.foldl
    (fun (st : List AssemblyError × List String × List Nat) lc =>
      let (errs, keep) := pass2Line p1.labels lc.1 lc.2
      (st.1 ++ errs, if keep then st.2.1 ++ [lc.2] else st.2.1,
       if keep then st.2.2 ++ [lc.1] else st.2.2))
    (p1.errors, [], [])
  if second.1 ≠ [] then
    { success := false, program := none, errors := second.1 }
  else
    { success := true
      program := some { instructions := second.2.1, labels := p1.labels
                        sourceMap := second.2.2 }
      errors := [] }

/-! ## Helper lemmas -/

instance {ε α : Type} [DecidableEq ε] [DecidableEq α] : DecidableEq (Except ε α) := fun x y =>
  match x, y with
  | .ok a, .ok b => if h : a = b then isTrue (by rw [h]) else isFalse (by simp [h])
  | .ok _, .error _ => isFalse (by simp)
  | .error _, .ok _ => isFalse (by simp)
  | .error a, .error b => if h : a = b then isTrue (by rw [h]) else isFalse (by simp [h])

theorem getD_set_self (l : List Int) (i : Nat) (a : Int) (h : i < l.length) :
    (l.set i a).getD i 0 = a := by
  induction l generalizing i with
  | nil => simp at h
  | cons x xs ih =>
    cases i with
    | zero => rfl
    | succ j => simpa using ih j (by simpa using h)

theorem mask16_nonneg (x : Int) : 0 ≤ mask16 x :=
  Int.emod_nonneg x (by norm_num)

theorem mask16_le (x : Int) : mask16 x ≤ 65535 := by
  have := Int.emod_lt_of_pos x (show (0:Int) < 65536 by norm_num)
  unfold mask16
  omega

theorem getRegisterIndex_lt (s : String) (d : Nat) (h : getRegisterIndex s = .ok d) :
    d < REGISTER_COUNT := by
  unfold getRegisterIndex at h
  split at h
  · split at h
    · dsimp only at h
      split at h
      · cases h
        assumption
      · cases h
    · cases h
  · cases h

/-! ## Claim C6 -/

set_option maxRecDepth 100000 in
/-- Claim C6 (confirmed): after bulk-loading A = [1..8] into VRAM[0..7] and
B = [10 x 8] into VRAM[8..15], starting an elementwise VADD from A's region
onto B's region and synchronously draining the unit (the GWAIT loop), the
destination region reads [11..18] and the unit reports not-busy. -/
theorem gpu_vadd_bulk_drain :
    (List.range 8).map (fun i =>
      GPU.readVRAM (GPU.drain (((GPU.reset.loadToVRAM
        [1,2,3,4,5,6,7,8,10,10,10,10,10,10,10,10] 0 0 8).loadToVRAM
        [1,2,3,4,5,6,7,8,10,10,10,10,10,10,10,10] 8 8 8).startOperation "VADD" 0 8 8 0))
        (8 + (i : Int))) = [11,12,13,14,15,16,17,18] ∧
    (GPU.drain (((GPU.reset.loadToVRAM
        [1,2,3,4,5,6,7,8,10,10,10,10,10,10,10,10] 0 0 8).loadToVRAM
        [1,2,3,4,5,6,7,8,10,10,10,10,10,10,10,10] 8 8 8).startOperation
        "VADD" 0 8 8 0)).isBusy = false := by
  exact ⟨by decide, by decide⟩

/-! ## Claim C5 -/

/-- Claim C5 counterexample: `startOperation` issued while the unit is busy
is not rejected: it silently replaces the in-flight descriptor.  Both the
cycle-based engine and the phase-stepped variant accept the second call
(VADD in flight, then VSUB): no error is raised, and the current
operation/pending descriptor afterwards is the new VSUB one. -/
theorem start_while_busy_not_rejected_counterexample :
    (GPU.reset.startOperation "VADD" 0 8 8 0).busy = true ∧
    ((GPU.reset.startOperation "VADD" 0 8 8 0).startOperation "VSUB" 1 2 3 0).currentOp
       = some "VSUB" ∧
    ((GPU.reset.startOperation "VADD" 0 8 8 0).startOperation "VSUB" 1 2 3 0).srcAddr = 1 ∧
    ((GPU.reset.startOperation "VADD" 0 8 8 0).startOperation "VSUB" 1 2 3 0).busy = true ∧
    (GPUPhased.startOperation { busy := false, currentStage := "idle", pendingOp := none }
       "VADD" 0 8 8 0).busy = true ∧
    (GPUPhased.startOperation (GPUPhased.startOperation
       { busy := false, currentStage := "idle", pendingOp := none } "VADD" 0 8 8 0)
       "VSUB" 1 2 3 0).pendingOp =
      some { op := "VSUB", srcAddr := 1, dstAddr := 2, length := 3, scalar := 0 } := by
  refine ⟨rfl, rfl, rfl, rfl, rfl, rfl⟩

/-- Claim C5 amended: `startOperation` never rejects a call.  Whatever the
current state (busy or not), it unconditionally installs the new descriptor,
marks the unit busy, clears the result and resets the batch counter; an
in-flight operation is silently replaced. -/
theorem start_operation_always_installs (g : GPU) (op : String)
    (srcAddr dstAddr len scalar : Int) (b : Bool) :
    (g.startOperation op srcAddr dstAddr len scalar).busy = true ∧
    (g.startOperation op srcAddr dstAddr len scalar).currentOp = some op ∧
    (g.startOperation op srcAddr dstAddr len scalar).srcAddr = srcAddr ∧
    (g.startOperation op srcAddr dstAddr len scalar).dstAddr = dstAddr ∧
    (g.startOperation op srcAddr dstAddr len scalar).length = min len (VRAM_SIZE : Int) ∧
    (g.startOperation op srcAddr dstAddr len scalar).scalar = scalar ∧
    (g.startOperation op srcAddr dstAddr len scalar).result = 0 ∧
    (g.startOperation op srcAddr dstAddr len scalar).currentCoreIndex = 0 ∧
    ({ g with busy := b } : GPU).startOperation op srcAddr dstAddr len scalar =
      g.startOperation op srcAddr dstAddr len scalar := by
  refine ⟨rfl, rfl, rfl, rfl, rfl, rfl, rfl, rfl, rfl⟩

/-! ## Claim C9 -/

set_option maxRecDepth 100000 in
/-- Claim C9 counterexample: pass 1 on `x: NOP` / `x: HALT` records the
duplicate-label diagnostic for line 2, but the `HALT` instruction text on
that line is dropped, not kept: the cleaned list holds only line 1's `NOP`. -/
theorem duplicate_label_drops_line_counterexample :
    pass1 (splitOnChar '\n' "x: NOP\nx: HALT") =
      { instructionIndex := 1, labels := [("x", 0)], cleanedLines := [(1, "NOP")]
        errors := [{ line := 2, message := "Duplicate label: x" }] } ∧
    ¬ "HALT" ∈ (pass1 (splitOnChar '\n' "x: NOP\nx: HALT")).cleanedLines.map Prod.snd := by
  exact ⟨by decide, by decide⟩

/-- Claim C9 amended: when pass 1 meets a line whose leading `name:` label
duplicates an already-recorded label, it appends exactly one duplicate-label
diagnostic and drops the whole line: the label table, the cleaned
instruction list (so also any instruction text following the label on that
line) and the instruction index are all left unchanged. -/
theorem duplicate_label_step_amended (acc : Pass1State) (lineNo : Nat) (line : String)
    (name rest : String)
    (hl : labelSplit (stripComment line) = some (name, rest))
    (hdup : (acc.labels.lookup name).isSome = true) :
    pass1Step acc lineNo line =
      { acc with errors := acc.errors ++ [⟨lineNo, "Duplicate label: " ++ name⟩] } := by
  have hne : stripComment line ≠ "" := by
    intro h
    rw [h] at hl
    simp [labelSplit] at hl
  unfold pass1Step
  rw [if_neg hne, hl]
  simp [hdup]

/-! ## Claim C4 -/

set_option maxRecDepth 100000 in
/-- Claim C4 (code bug): executing `MOV R0 %%`, whose operand `%%` is an
invalid operand literal, is not handled as the spec requires.  Because
`generateMicroOps` runs outside `step()`'s try/catch, the `Invalid value`
exception escapes the method uncaught: no error event is emitted, the CPU
is not halted, and the authoritative state is completely unchanged (the
spec instead requires a halt plus one error event). -/
theorem invalid_literal_escapes_step_uncaught :
    (CPU.step (CPU.loadProgram none ["MOV R0 %%"] [])).2.2 =
      .thrown "Invalid value: %%" ∧
    (CPU.step (CPU.loadProgram none ["MOV R0 %%"] [])).2.1 = [] ∧
    (CPU.step (CPU.loadProgram none ["MOV R0 %%"] [])).1.exec.halted = false ∧
    (CPU.step (CPU.loadProgram none ["MOV R0 %%"] [])).1.exec =
      (CPU.loadProgram none ["MOV R0 %%"] []).exec := by
  refine ⟨by decide, by decide, by decide, by decide⟩

/-! ## Claim C8 -/

set_option maxRecDepth 100000 in
/-- Claim C8 counterexample: from the reset state, running
`PUSH 70000` then `POP R0` leaves register 0 holding 70000 > 0xFFFF: the
pushed immediate is stored to memory unmasked and `POP` copies it back
unmasked, so a register write is not always masked to 16 bits. -/
theorem register_masking_counterexample :
    ((CPU.step (CPU.step (CPU.loadProgram none
        ["PUSH 70000", "POP R0"] [])).1).1.exec.registers.getD 0 0 : Int) = 70000 ∧
    ¬ ((CPU.step (CPU.step (CPU.loadProgram none
        ["PUSH 70000", "POP R0"] [])).1).1.exec.registers.getD 0 0 : Int) ≤ 65535 := by
  exact ⟨by decide, by decide⟩

/-! ## Claim C10 -/

set_option maxRecDepth 100000 in
/-- Claim C10 counterexample: load the one-instruction program `NOP` and
call `step()` twice.  The second call finds the PC past the end of the
program, sets `halted` and emits a `halt` event - yet no HALT/HLT opcode
exists in the program and no error event was ever emitted, so halting is
also reachable without the halt opcode and without a fatal error. -/
theorem halted_via_pc_overrun_counterexample :
    (CPU.step (CPU.loadProgram none ["NOP"] [])).1.exec.halted = false ∧
    (CPU.step (CPU.step (CPU.loadProgram none ["NOP"] [])).1).1.exec.halted = true ∧
    (CPU.step (CPU.loadProgram none ["NOP"] [])).2.1 = [CPUEvent.step "NOP" []] ∧
    (CPU.step (CPU.step (CPU.loadProgram none ["NOP"] [])).1).2.1 = [CPUEvent.halt] ∧
    ((CPU.loadProgram none ["NOP"] []).program.all fun i =>
      toUpperStr ((splitParts i).getD 0 "") ≠ "HALT" ∧
      toUpperStr ((splitParts i).getD 0 "") ≠ "HLT") = true := by
  refine ⟨by decide, by decide, by decide, by decide, by decide⟩

/-! ## Shape lemmas for `step` / `microStep` on a live machine -/

theorem step_run (c : CPU) (hh : c.exec.halted = false)
    (hpc : c.exec.pc < (c.program.length : Int)) :
    CPU.step c =
      (match generateMicroOps c.labels c.exec c.fetchInstr with
       | .error e =>
         ({ c with previousRegisters := c.exec.registers
                   instructionRegister := c.fetchInstr }, [], .thrown e)
       | .ok l =>
         match executeInstruction c.labels c.exec c.fetchInstr with
         | (es', none) =>
           ({ c with previousRegisters := c.exec.registers
                     instructionRegister := c.fetchInstr
                     microOps := l, exec := es', currentStage := .idle },
            [.step c.fetchInstr (changedRegisters c.exec.registers es'.registers)],
            .ret (!es'.halted))
         | (es', some msg) =>
           ({ c with previousRegisters := c.exec.registers
                     instructionRegister := c.fetchInstr
                     microOps := l, exec := { es' with halted := true } },
            [.error c.fetchInstr msg], .ret false)) := by
  unfold CPU.step
  rw [if_neg (by simp [hh]; omega)]

theorem microStep_fresh (c : CPU) (hh : c.exec.halted = false)
    (hpc : c.exec.pc < (c.program.length : Int))
    (hfresh : c.microOps.length ≤ c.currentMicroOpIndex) :
    CPU.microStep c =
      (match generateMicroOps c.labels c.exec c.fetchInstr with
       | .error e => ({ c with instructionRegister := c.fetchInstr }, [], .error e)
       | .ok l =>
         CPU.microStepGo { c with instructionRegister := c.fetchInstr
                                  microOps := l, currentMicroOpIndex := 0 }) := by
  unfold CPU.microStep
  rw [if_neg (by simp [hh]; omega), if_pos hfresh]

theorem microStep_cont (c : CPU) (hh : c.exec.halted = false)
    (hpc : c.exec.pc < (c.program.length : Int))
    (hmid : ¬ c.microOps.length ≤ c.currentMicroOpIndex) :
    CPU.microStep c = CPU.microStepGo c := by
  unfold CPU.microStep
  rw [if_neg (by simp [hh]; omega), if_neg hmid]

/-! ## Claim C2 -/

theorem genExecOps_div_ok (labels : Labels) (es : ExecState) (p0 : String)
    (ps : List String) (d : Nat) (v : Int)
    (hreg : getRegisterIndex (ps.getD 0 "") = .ok d)
    (hval : parseValue labels es.registers (ps.getD 1 "") = .ok v) :
    (∃ l, genExecOps labels es (p0 :: ps) "DIV" = .ok l) ∧
    (∃ l, genExecOps labels es (p0 :: ps) "MOD" = .ok l) := by
  constructor
  · unfold genExecOps
    simp only [List.getD_cons_succ]
    rw [hreg, hval]
    exact ⟨_, rfl⟩
  · unfold genExecOps
    simp only [List.getD_cons_succ]
    rw [hreg, hval]
    exact ⟨_, rfl⟩

theorem execSwitch_div_zero (labels : Labels) (es : ExecState) (p0 : String)
    (ps : List String) (d : Nat)
    (hreg : getRegisterIndex (ps.getD 0 "") = .ok d)
    (hzero : parseValue labels es.registers (ps.getD 1 "") = .ok 0) :
    execSwitch labels es (p0 :: ps) "DIV" = .thrown "Division by zero" ∧
    execSwitch labels es (p0 :: ps) "MOD" = .thrown "Division by zero" := by
  constructor
  · unfold execSwitch
    simp only [List.getD_cons_succ]
    rw [hreg, hzero]
    simp
  · unfold execSwitch
    simp only [List.getD_cons_succ]
    rw [hreg, hzero]
    simp

/-- Claim C2 (confirmed): a DIV or MOD instruction whose resolved divisor
operand is 0 throws a fatal `Division by zero` before any register write;
`step()` catches it, emits exactly one error event carrying the message,
halts the CPU, and every register (in particular the destination) holds the
value it held before the instruction. -/
theorem div_mod_by_zero_fatal (c : CPU) (p0 : String) (ps : List String) (d : Nat)
    (hh : c.exec.halted = false)
    (hpc : c.exec.pc < (c.program.length : Int))
    (hsplit : splitParts c.fetchInstr = p0 :: ps)
    (hop : toUpperStr p0 = "DIV" ∨ toUpperStr p0 = "MOD")
    (hreg : getRegisterIndex (ps.getD 0 "") = .ok d)
    (hzero : parseValue c.labels c.exec.registers (ps.getD 1 "") = .ok 0) :
    (CPU.step c).1.exec.halted = true ∧
    (CPU.step c).1.exec.registers = c.exec.registers ∧
    (CPU.step c).2.1 = [CPUEvent.error c.fetchInstr "Division by zero"] ∧
    (CPU.step c).2.2 = .ret false := by
  have hrun := step_run c hh hpc
  have hbump : ({ c.exec with cycles := c.exec.cycles + 1 } : ExecState).registers
      = c.exec.registers := rfl
  rcases hop with h | h
  · obtain ⟨l, hl⟩ := (genExecOps_div_ok c.labels c.exec p0 ps d 0 hreg hzero).1
    have hgenEx : ∃ l', generateMicroOps c.labels c.exec c.fetchInstr = .ok l' := by
      unfold generateMicroOps
      rw [hsplit]
      simp only [List.head?]
      rw [h, hl]
      exact ⟨_, rfl⟩
    obtain ⟨l', hgen⟩ := hgenEx
    have hsw := (execSwitch_div_zero c.labels
      { c.exec with cycles := c.exec.cycles + 1 } p0 ps d hreg hzero).1
    have hexec : executeInstruction c.labels c.exec c.fetchInstr =
        ({ c.exec with cycles := c.exec.cycles + 1 }, some "Division by zero") := by
      unfold executeInstruction
      rw [hsplit]
      simp only [List.head?]
      rw [h, hsw]
    rw [hgen, hexec] at hrun
    rw [hrun]
    exact ⟨rfl, rfl, rfl, rfl⟩
  · obtain ⟨l, hl⟩ := (genExecOps_div_ok c.labels c.exec p0 ps d 0 hreg hzero).2
    have hgenEx : ∃ l', generateMicroOps c.labels c.exec c.fetchInstr = .ok l' := by
      unfold generateMicroOps
      rw [hsplit]
      simp only [List.head?]
      rw [h, hl]
      exact ⟨_, rfl⟩
    obtain ⟨l', hgen⟩ := hgenEx
    have hsw := (execSwitch_div_zero c.labels
      { c.exec with cycles := c.exec.cycles + 1 } p0 ps d hreg hzero).2
    have hexec : executeInstruction c.labels c.exec c.fetchInstr =
        ({ c.exec with cycles := c.exec.cycles + 1 }, some "Division by zero") := by
      unfold executeInstruction
      rw [hsplit]
      simp only [List.head?]
      rw [h, hsw]
    rw [hgen, hexec] at hrun
    rw [hrun]
    exact ⟨rfl, rfl, rfl, rfl⟩

set_option maxRecDepth 100000 in
/-- Claim C2 witness: the hypotheses of `div_mod_by_zero_fatal` hold for the
one-instruction program `DIV R0 0` on a freshly loaded machine, and so do
its conclusions. -/
theorem div_mod_by_zero_fatal_witness :
    ((CPU.loadProgram none ["DIV R0 0"] []).exec.halted = false ∧
     (CPU.loadProgram none ["DIV R0 0"] []).exec.pc <
       ((CPU.loadProgram none ["DIV R0 0"] []).program.length : Int) ∧
     splitParts (CPU.loadProgram none ["DIV R0 0"] []).fetchInstr = "DIV" :: ["R0", "0"] ∧
     toUpperStr "DIV" = "DIV" ∧
     getRegisterIndex (["R0", "0"].getD 0 "") = .ok 0 ∧
     parseValue (CPU.loadProgram none ["DIV R0 0"] []).labels
       (CPU.loadProgram none ["DIV R0 0"] []).exec.registers (["R0", "0"].getD 1 "") = .ok 0) ∧
    ((CPU.step (CPU.loadProgram none ["DIV R0 0"] [])).1.exec.halted = true ∧
     (CPU.step (CPU.loadProgram none ["DIV R0 0"] [])).1.exec.registers =
       (CPU.loadProgram none ["DIV R0 0"] []).exec.registers ∧
     (CPU.step (CPU.loadProgram none ["DIV R0 0"] [])).2.1 =
       [CPUEvent.error (CPU.loadProgram none ["DIV R0 0"] []).fetchInstr "Division by zero"] ∧
     (CPU.step (CPU.loadProgram none ["DIV R0 0"] [])).2.2 = .ret false) :=
  ⟨⟨by decide, by decide, by decide, by decide, by decide, by decide⟩,
   div_mod_by_zero_fatal (CPU.loadProgram none ["DIV R0 0"] []) "DIV" ["R0", "0"] 0
     (by decide) (by decide) (by decide) (Or.inl (by decide)) (by decide) (by decide)⟩

/-! ## Per-opcode characterizations of `execSwitch` -/

theorem executeInstruction_of_fallthrough (labels : Labels) (es : ExecState)
    (instr p0 : String) (ps : List String) (es₂ : ExecState)
    (hsplit : splitParts instr = p0 :: ps)
    (hsw : execSwitch labels { es with cycles := es.cycles + 1 } (p0 :: ps)
      (toUpperStr p0) = .fallthrough es₂) :
    executeInstruction labels es instr = ({ es₂ with pc := es₂.pc + 1 }, none) := by
  unfold executeInstruction
  rw [hsplit]
  simp only [List.head?]
  rw [hsw]

theorem execSwitch_add (labels : Labels) (esb : ExecState) (p0 : String)
    (ps : List String) (d : Nat) (v : Int)
    (hreg : getRegisterIndex (ps.getD 0 "") = .ok d)
    (hval : parseValue labels esb.registers (ps.getD 1 "") = .ok v) :
    execSwitch labels esb (p0 :: ps) "ADD" = .fallthrough
      { esb with registers := esb.registers.set d (mask16 (esb.registers.getD d 0 + v))
                 flags := flagsOf (esb.registers.getD d 0 + v) } := by
  unfold execSwitch
  simp only [List.getD_cons_succ]
  rw [hreg, hval]

theorem execSwitch_sub (labels : Labels) (esb : ExecState) (p0 : String)
    (ps : List String) (d : Nat) (v : Int)
    (hreg : getRegisterIndex (ps.getD 0 "") = .ok d)
    (hval : parseValue labels esb.registers (ps.getD 1 "") = .ok v) :
    execSwitch labels esb (p0 :: ps) "SUB" = .fallthrough
      { esb with registers := esb.registers.set d (mask16 (esb.registers.getD d 0 - v))
                 flags := flagsOf (esb.registers.getD d 0 - v) } := by
  unfold execSwitch
  simp only [List.getD_cons_succ]
  rw [hreg, hval]

theorem execSwitch_mul (labels : Labels) (esb : ExecState) (p0 : String)
    (ps : List String) (d : Nat) (v : Int)
    (hreg : getRegisterIndex (ps.getD 0 "") = .ok d)
    (hval : parseValue labels esb.registers (ps.getD 1 "") = .ok v) :
    execSwitch labels esb (p0 :: ps) "MUL" = .fallthrough
      { esb with registers := esb.registers.set d (mask16 (esb.registers.getD d 0 * v))
                 flags := flagsOf (esb.registers.getD d 0 * v) } := by
  unfold execSwitch
  simp only [List.getD_cons_succ]
  rw [hreg, hval]

theorem execSwitch_div_nonzero (labels : Labels) (esb : ExecState) (p0 : String)
    (ps : List String) (d : Nat) (v : Int)
    (hreg : getRegisterIndex (ps.getD 0 "") = .ok d)
    (hval : parseValue labels esb.registers (ps.getD 1 "") = .ok v) (hv : v ≠ 0) :
    execSwitch labels esb (p0 :: ps) "DIV" = .fallthrough
      { esb with
        registers := esb.registers.set d (mask16 (jsFloorDiv (esb.registers.getD d 0) v))
        flags := flagsOf (jsFloorDiv (esb.registers.getD d 0) v) } := by
  unfold execSwitch
  simp only [List.getD_cons_succ]
  rw [hreg, hval]
  simp [hv]

theorem execSwitch_mod_nonzero (labels : Labels) (esb : ExecState) (p0 : String)
    (ps : List String) (d : Nat) (v : Int)
    (hreg : getRegisterIndex (ps.getD 0 "") = .ok d)
    (hval : parseValue labels esb.registers (ps.getD 1 "") = .ok v) (hv : v ≠ 0) :
    execSwitch labels esb (p0 :: ps) "MOD" = .fallthrough
      { esb with
        registers := esb.registers.set d (mask16 (jsRem (esb.registers.getD d 0) v))
        flags := flagsOf (jsRem (esb.registers.getD d 0) v) } := by
  unfold execSwitch
  simp only [List.getD_cons_succ]
  rw [hreg, hval]
  simp [hv]

theorem execSwitch_and (labels : Labels) (esb : ExecState) (p0 : String)
    (ps : List String) (d : Nat) (v : Int)
    (hreg : getRegisterIndex (ps.getD 0 "") = .ok d)
    (hval : parseValue labels esb.registers (ps.getD 1 "") = .ok v) :
    execSwitch labels esb (p0 :: ps) "AND" = .fallthrough
      { esb with registers := esb.registers.set d (jsAnd (esb.registers.getD d 0) v)
                 flags := flagsOf (jsAnd (esb.registers.getD d 0) v) } := by
  unfold execSwitch
  simp only [List.getD_cons_succ]
  rw [hreg, hval]

theorem execSwitch_or (labels : Labels) (esb : ExecState) (p0 : String)
    (ps : List String) (d : Nat) (v : Int)
    (hreg : getRegisterIndex (ps.getD 0 "") = .ok d)
    (hval : parseValue labels esb.registers (ps.getD 1 "") = .ok v) :
    execSwitch labels esb (p0 :: ps) "OR" = .fallthrough
      { esb with registers := esb.registers.set d (jsOr (esb.registers.getD d 0) v)
                 flags := flagsOf (jsOr (esb.registers.getD d 0) v) } := by
  unfold execSwitch
  simp only [List.getD_cons_succ]
  rw [hreg, hval]

theorem execSwitch_xor (labels : Labels) (esb : ExecState) (p0 : String)
    (ps : List String) (d : Nat) (v : Int)
    (hreg : getRegisterIndex (ps.getD 0 "") = .ok d)
    (hval : parseValue labels esb.registers (ps.getD 1 "") = .ok v) :
    execSwitch labels esb (p0 :: ps) "XOR" = .fallthrough
      { esb with registers := esb.registers.set d (jsXor (esb.registers.getD d 0) v)
                 flags := flagsOf (jsXor (esb.registers.getD d 0) v) } := by
  unfold execSwitch
  simp only [List.getD_cons_succ]
  rw [hreg, hval]

theorem execSwitch_not (labels : Labels) (esb : ExecState) (p0 : String)
    (ps : List String) (d : Nat)
    (hreg : getRegisterIndex (ps.getD 0 "") = .ok d) :
    execSwitch labels esb (p0 :: ps) "NOT" = .fallthrough
      { esb with registers := esb.registers.set d (mask16 (jsNot (esb.registers.getD d 0)))
                 flags := flagsOf (mask16 (jsNot (esb.registers.getD d 0))) } := by
  unfold execSwitch
  simp only [List.getD_cons_succ]
  rw [hreg]

theorem execSwitch_shl (labels : Labels) (esb : ExecState) (p0 : String)
    (ps : List String) (d : Nat) (v : Int)
    (hreg : getRegisterIndex (ps.getD 0 "") = .ok d)
    (hval : parseValue labels esb.registers (ps.getD 1 "") = .ok v) :
    execSwitch labels esb (p0 :: ps) "SHL" = .fallthrough
      { esb with registers := esb.registers.set d (mask16 (jsShl (esb.registers.getD d 0) v))
                 flags := flagsOf (mask16 (jsShl (esb.registers.getD d 0) v)) } := by
  unfold execSwitch
  simp only [List.getD_cons_succ]
  rw [hreg, hval]

theorem execSwitch_shr (labels : Labels) (esb : ExecState) (p0 : String)
    (ps : List String) (d : Nat) (v : Int)
    (hreg : getRegisterIndex (ps.getD 0 "") = .ok d)
    (hval : parseValue labels esb.registers (ps.getD 1 "") = .ok v) :
    execSwitch labels esb (p0 :: ps) "SHR" = .fallthrough
      { esb with registers := esb.registers.set d (jsShrU (esb.registers.getD d 0) v)
                 flags := flagsOf (jsShrU (esb.registers.getD d 0) v) } := by
  unfold execSwitch
  simp only [List.getD_cons_succ]
  rw [hreg, hval]

theorem execSwitch_inc (labels : Labels) (esb : ExecState) (p0 : String)
    (ps : List String) (d : Nat)
    (hreg : getRegisterIndex (ps.getD 0 "") = .ok d) :
    execSwitch labels esb (p0 :: ps) "INC" = .fallthrough
      { esb with registers := esb.registers.set d (mask16 (esb.registers.getD d 0 + 1))
                 flags := flagsOf (esb.registers.getD d 0 + 1) } := by
  unfold execSwitch
  simp only [List.getD_cons_succ]
  rw [hreg]

theorem execSwitch_dec (labels : Labels) (esb : ExecState) (p0 : String)
    (ps : List String) (d : Nat)
    (hreg : getRegisterIndex (ps.getD 0 "") = .ok d) :
    execSwitch labels esb (p0 :: ps) "DEC" = .fallthrough
      { esb with registers := esb.registers.set d (mask16 (esb.registers.getD d 0 - 1))
                 flags := flagsOf (esb.registers.getD d 0 - 1) } := by
  unfold execSwitch
  simp only [List.getD_cons_succ]
  rw [hreg]

theorem execSwitch_cmp (labels : Labels) (esb : ExecState) (p0 : String)
    (ps : List String) (a b : Int)
    (hval1 : parseValue labels esb.registers (ps.getD 0 "") = .ok a)
    (hval2 : parseValue labels esb.registers (ps.getD 1 "") = .ok b) :
    execSwitch labels esb (p0 :: ps) "CMP" = .fallthrough
      { esb with flags := flagsOf (a - b) } := by
  unfold execSwitch
  simp only [List.getD_cons_succ]
  rw [hval1, hval2]

theorem execSwitch_push (labels : Labels) (esb : ExecState) (p0 : String)
    (ps : List String) (v : Int)
    (hval : parseValue labels esb.registers (ps.getD 0 "") = .ok v) :
    execSwitch labels esb (p0 :: ps) "PUSH" = .fallthrough
      { esb with memory := idxSet esb.memory esb.sp v
                 sp := mask8 (esb.sp - 1) } := by
  unfold execSwitch
  simp only [List.getD_cons_succ]
  rw [hval]

theorem execSwitch_pop (labels : Labels) (esb : ExecState) (p0 : String)
    (ps : List String) (d : Nat)
    (hreg : getRegisterIndex (ps.getD 0 "") = .ok d) :
    execSwitch labels esb (p0 :: ps) "POP" = .fallthrough
      { esb with sp := mask8 (esb.sp + 1)
                 registers := esb.registers.set d (idxGet esb.memory (mask8 (esb.sp + 1))) } := by
  unfold execSwitch
  simp only [List.getD_cons_succ]
  rw [hreg]

theorem execSwitch_gresult (labels : Labels) (esb : ExecState) (p0 : String)
    (ps : List String) (d : Nat) (g : GPU)
    (hgpu : esb.gpu = some g)
    (hreg : getRegisterIndex (ps.getD 0 "") = .ok d) :
    execSwitch labels esb (p0 :: ps) "GRESULT" = .fallthrough
      { esb with registers := esb.registers.set d g.getResult } := by
  unfold execSwitch
  simp only [List.getD_cons_succ]
  rw [hgpu, hreg]

theorem executeInstruction_of_thrown (labels : Labels) (es : ExecState)
    (instr p0 : String) (ps : List String) (msg : String)
    (hsplit : splitParts instr = p0 :: ps)
    (hsw : execSwitch labels { es with cycles := es.cycles + 1 } (p0 :: ps)
      (toUpperStr p0) = .thrown msg) :
    executeInstruction labels es instr = ({ es with cycles := es.cycles + 1 }, some msg) := by
  unfold executeInstruction
  rw [hsplit]
  simp only [List.head?]
  rw [hsw]

theorem set_getD_bounds (regs : List Int) (d : Nat) (x : Int)
    (hlen : regs.length = REGISTER_COUNT) (hd : d < REGISTER_COUNT)
    (h0 : 0 ≤ x) (h1 : x ≤ 65535) :
    0 ≤ (regs.set d x).getD d 0 ∧ (regs.set d x).getD d 0 ≤ 65535 := by
  rw [getD_set_self _ _ _ (by omega)]
  exact ⟨h0, h1⟩

/-! ## Claim C7 -/

/-- Claim C7 (confirmed): every arithmetic instruction (ADD, SUB, MUL, DIV,
MOD, INC, DEC) that executes without a runtime error stores `result &
0xffff` into its destination register, so the destination's value
afterwards lies in [0, 65535]. -/
theorem arithmetic_dest_in_range :
    (∀ (labels : Labels) (es : ExecState) (instr p0 : String) (ps : List String)
       (es' : ExecState) (d : Nat) (v : Int),
      splitParts instr = p0 :: ps →
      toUpperStr p0 ∈ (["ADD", "SUB", "MUL", "DIV", "MOD"] : List String) →
      getRegisterIndex (ps.getD 0 "") = .ok d →
      parseValue labels es.registers (ps.getD 1 "") = .ok v →
      es.registers.length = REGISTER_COUNT →
      executeInstruction labels es instr = (es', none) →
      0 ≤ es'.registers.getD d 0 ∧ es'.registers.getD d 0 ≤ 65535) ∧
    (∀ (labels : Labels) (es : ExecState) (instr p0 : String) (ps : List String)
       (es' : ExecState) (d : Nat),
      splitParts instr = p0 :: ps →
      (toUpperStr p0 = "INC" ∨ toUpperStr p0 = "DEC") →
      getRegisterIndex (ps.getD 0 "") = .ok d →
      es.registers.length = REGISTER_COUNT →
      executeInstruction labels es instr = (es', none) →
      0 ≤ es'.registers.getD d 0 ∧ es'.registers.getD d 0 ≤ 65535) := by
  constructor
  · intro labels es instr p0 ps es' d v hsplit hop hreg hval hlen hexec
    have hd := getRegisterIndex_lt _ _ hreg
    simp only [List.mem_cons, List.not_mem_nil, or_false] at hop
    rcases hop with h | h | h | h | h
    · have hx := executeInstruction_of_fallthrough labels es instr p0 ps _ hsplit
        (by rw [h]; exact execSwitch_add labels _ p0 ps d v hreg hval)
      injection hx.symm.trans hexec with h1 _
      subst h1
      exact set_getD_bounds _ _ _ hlen hd (mask16_nonneg _) (mask16_le _)
    · have hx := executeInstruction_of_fallthrough labels es instr p0 ps _ hsplit
        (by rw [h]; exact execSwitch_sub labels _ p0 ps d v hreg hval)
      injection hx.symm.trans hexec with h1 _
      subst h1
      exact set_getD_bounds _ _ _ hlen hd (mask16_nonneg _) (mask16_le _)
    · have hx := executeInstruction_of_fallthrough labels es instr p0 ps _ hsplit
        (by rw [h]; exact execSwitch_mul labels _ p0 ps d v hreg hval)
      injection hx.symm.trans hexec with h1 _
      subst h1
      exact set_getD_bounds _ _ _ hlen hd (mask16_nonneg _) (mask16_le _)
    · by_cases hv0 : v = 0
      · subst hv0
        have hx := executeInstruction_of_thrown labels es instr p0 ps _ hsplit
          (by rw [h]; exact (execSwitch_div_zero labels { es with cycles := es.cycles + 1 } p0 ps d hreg hval).1)
        rw [hx] at hexec
        simp at hexec
      · have hx := executeInstruction_of_fallthrough labels es instr p0 ps _ hsplit
          (by rw [h]; exact execSwitch_div_nonzero labels _ p0 ps d v hreg hval hv0)
        injection hx.symm.trans hexec with h1 _
        subst h1
        exact set_getD_bounds _ _ _ hlen hd (mask16_nonneg _) (mask16_le _)
    · by_cases hv0 : v = 0
      · subst hv0
        have hx := executeInstruction_of_thrown labels es instr p0 ps _ hsplit
          (by rw [h]; exact (execSwitch_div_zero labels { es with cycles := es.cycles + 1 } p0 ps d hreg hval).2)
        rw [hx] at hexec
        simp at hexec
      · have hx := executeInstruction_of_fallthrough labels es instr p0 ps _ hsplit
          (by rw [h]; exact execSwitch_mod_nonzero labels _ p0 ps d v hreg hval hv0)
        injection hx.symm.trans hexec with h1 _
        subst h1
        exact set_getD_bounds _ _ _ hlen hd (mask16_nonneg _) (mask16_le _)
  · intro labels es instr p0 ps es' d hsplit hop hreg hlen hexec
    have hd := getRegisterIndex_lt _ _ hreg
    rcases hop with h | h
    · have hx := executeInstruction_of_fallthrough labels es instr p0 ps _ hsplit
        (by rw [h]; exact execSwitch_inc labels _ p0 ps d hreg)
      injection hx.symm.trans hexec with h1 _
      subst h1
      exact set_getD_bounds _ _ _ hlen hd (mask16_nonneg _) (mask16_le _)
    · have hx := executeInstruction_of_fallthrough labels es instr p0 ps _ hsplit
        (by rw [h]; exact execSwitch_dec labels _ p0 ps d hreg)
      injection hx.symm.trans hexec with h1 _
      subst h1
      exact set_getD_bounds _ _ _ hlen hd (mask16_nonneg _) (mask16_le _)

set_option maxRecDepth 100000 in
/-- Claim C7 witness: `ADD R0 70000` on a fresh machine executes without
error and leaves R0 = 4464 which indeed lies in [0, 65535]. -/
theorem arithmetic_dest_in_range_witness :
    (splitParts "ADD R0 70000" = "ADD" :: ["R0", "70000"] ∧
     toUpperStr "ADD" ∈ (["ADD", "SUB", "MUL", "DIV", "MOD"] : List String) ∧
     getRegisterIndex (["R0", "70000"].getD 0 "") = .ok 0 ∧
     parseValue [] (CPU.resetState none).exec.registers (["R0", "70000"].getD 1 "") =
       .ok 70000 ∧
     (CPU.resetState none).exec.registers.length = REGISTER_COUNT ∧
     executeInstruction [] (CPU.resetState none).exec "ADD R0 70000" =
       ((executeInstruction [] (CPU.resetState none).exec "ADD R0 70000").1, none)) ∧
    (0 ≤ (executeInstruction [] (CPU.resetState none).exec "ADD R0 70000").1.registers.getD 0 0 ∧
     (executeInstruction [] (CPU.resetState none).exec "ADD R0 70000").1.registers.getD 0 0
       ≤ 65535) :=
  ⟨⟨by decide, by decide, by decide, by decide, by decide, by decide⟩,
   arithmetic_dest_in_range.1 [] (CPU.resetState none).exec "ADD R0 70000" "ADD"
     ["R0", "70000"] (executeInstruction [] (CPU.resetState none).exec "ADD R0 70000").1
     0 70000 (by decide) (by decide) (by decide) (by decide) (by decide) (by decide)⟩

/-! ## Claim C3 -/

/-- The raw, pre-mask result of a binary arithmetic instruction, as the
spec's flag rule describes it. -/
def arithRaw (op : String) (a b : Int) : Int :=
  match op with
  | "ADD" => a + b
  | "SUB" => a - b
  | "MUL" => a * b
  | "DIV" => jsFloorDiv a b
  | "MOD" => jsRem a b
  | _ => 0

set_option maxRecDepth 100000 in
/-- Claim C3 counterexample: `SHL R0 1` with R0 = 0x8000 has raw shift
result 65536 (non-zero and above the unsigned 16-bit range), so the claim
predicts zero = false and carry = true; the code recomputes the flags from
the masked stored value 0 instead and yields zero = true, carry = false. -/
theorem flags_raw_recompute_counterexample :
    (executeInstruction [] { (CPU.resetState none).exec with
        registers := [32768, 0, 0, 0, 0, 0, 0, 0] } "SHL R0 1").2 = none ∧
    (executeInstruction [] { (CPU.resetState none).exec with
        registers := [32768, 0, 0, 0, 0, 0, 0, 0] } "SHL R0 1").1.registers.getD 0 0 = 0 ∧
    (executeInstruction [] { (CPU.resetState none).exec with
        registers := [32768, 0, 0, 0, 0, 0, 0, 0] } "SHL R0 1").1.flags.zero = true ∧
    (executeInstruction [] { (CPU.resetState none).exec with
        registers := [32768, 0, 0, 0, 0, 0, 0, 0] } "SHL R0 1").1.flags.carry = false ∧
    jsShl 32768 1 = 65536 ∧ ((65536 : Int) ≠ 0) ∧ ((65536 : Int) > 65535) := by
  refine ⟨by decide, by decide, by decide, by decide, by decide, by decide, by decide⟩

/-- Claim C3 amended: after the arithmetic instructions ADD, SUB, MUL, DIV,
MOD, INC, DEC and after CMP the flags are recomputed by the spec's rule from
the raw unmasked result, and (CMP aside) the destination receives the raw
result masked to 16 bits; but after the bitwise/shift instructions AND, OR,
XOR, NOT, SHL, SHR the flags are recomputed from the value actually stored
in the destination register (for SHL and NOT this is the masked result, so
the zero/negative/carry flags can disagree with the raw result's). -/
theorem flags_recompute_amended :
    (∀ (labels : Labels) (es : ExecState) (instr p0 : String) (ps : List String)
       (es' : ExecState) (d : Nat) (v : Int),
      splitParts instr = p0 :: ps →
      toUpperStr p0 ∈ (["ADD", "SUB", "MUL", "DIV", "MOD"] : List String) →
      getRegisterIndex (ps.getD 0 "") = .ok d →
      parseValue labels es.registers (ps.getD 1 "") = .ok v →
      es.registers.length = REGISTER_COUNT →
      executeInstruction labels es instr = (es', none) →
      es'.flags = flagsOf (arithRaw (toUpperStr p0) (es.registers.getD d 0) v) ∧
      es'.registers.getD d 0 = mask16 (arithRaw (toUpperStr p0) (es.registers.getD d 0) v)) ∧
    (∀ (labels : Labels) (es : ExecState) (instr p0 : String) (ps : List String)
       (es' : ExecState) (d : Nat),
      splitParts instr = p0 :: ps →
      toUpperStr p0 = "INC" →
      getRegisterIndex (ps.getD 0 "") = .ok d →
      es.registers.length = REGISTER_COUNT →
      executeInstruction labels es instr = (es', none) →
      es'.flags = flagsOf (es.registers.getD d 0 + 1) ∧
      es'.registers.getD d 0 = mask16 (es.registers.getD d 0 + 1)) ∧
    (∀ (labels : Labels) (es : ExecState) (instr p0 : String) (ps : List String)
       (es' : ExecState) (d : Nat),
      splitParts instr = p0 :: ps →
      toUpperStr p0 = "DEC" →
      getRegisterIndex (ps.getD 0 "") = .ok d →
      es.registers.length = REGISTER_COUNT →
      executeInstruction labels es instr = (es', none) →
      es'.flags = flagsOf (es.registers.getD d 0 - 1) ∧
      es'.registers.getD d 0 = mask16 (es.registers.getD d 0 - 1)) ∧
    (∀ (labels : Labels) (es : ExecState) (instr p0 : String) (ps : List String)
       (es' : ExecState) (a b : Int),
      splitParts instr = p0 :: ps →
      toUpperStr p0 = "CMP" →
      parseValue labels es.registers (ps.getD 0 "") = .ok a →
      parseValue labels es.registers (ps.getD 1 "") = .ok b →
      executeInstruction labels es instr = (es', none) →
      es'.flags = flagsOf (a - b) ∧ es'.registers = es.registers) ∧
    (∀ (labels : Labels) (es : ExecState) (instr p0 : String) (ps : List String)
       (es' : ExecState) (d : Nat) (v : Int),
      splitParts instr = p0 :: ps →
      toUpperStr p0 ∈ (["AND", "OR", "XOR", "SHL", "SHR"] : List String) →
      getRegisterIndex (ps.getD 0 "") = .ok d →
      parseValue labels es.registers (ps.getD 1 "") = .ok v →
      es.registers.length = REGISTER_COUNT →
      executeInstruction labels es instr = (es', none) →
      es'.flags = flagsOf (es'.registers.getD d 0)) ∧
    (∀ (labels : Labels) (es : ExecState) (instr p0 : String) (ps : List String)
       (es' : ExecState) (d : Nat),
      splitParts instr = p0 :: ps →
      toUpperStr p0 = "NOT" →
      getRegisterIndex (ps.getD 0 "") = .ok d →
      es.registers.length = REGISTER_COUNT →
      executeInstruction labels es instr = (es', none) →
      es'.flags = flagsOf (es'.registers.getD d 0)) := by
  refine ⟨?_, ?_, ?_, ?_, ?_, ?_⟩
  · intro labels es instr p0 ps es' d v hsplit hop hreg hval hlen hexec
    have hd := getRegisterIndex_lt _ _ hreg
    simp only [List.mem_cons, List.not_mem_nil, or_false] at hop
    rcases hop with h | h | h | h | h <;> rw [h]
    · have hx := executeInstruction_of_fallthrough labels es instr p0 ps _ hsplit
        (by rw [h]; exact execSwitch_add labels _ p0 ps d v hreg hval)
      injection hx.symm.trans hexec with h1 _
      subst h1
      exact ⟨rfl, getD_set_self es.registers d _ (by omega)⟩
    · have hx := executeInstruction_of_fallthrough labels es instr p0 ps _ hsplit
        (by rw [h]; exact execSwitch_sub labels _ p0 ps d v hreg hval)
      injection hx.symm.trans hexec with h1 _
      subst h1
      exact ⟨rfl, getD_set_self es.registers d _ (by omega)⟩
    · have hx := executeInstruction_of_fallthrough labels es instr p0 ps _ hsplit
        (by rw [h]; exact execSwitch_mul labels _ p0 ps d v hreg hval)
      injection hx.symm.trans hexec with h1 _
      subst h1
      exact ⟨rfl, getD_set_self es.registers d _ (by omega)⟩
    · by_cases hv0 : v = 0
      · subst hv0
        have hx := executeInstruction_of_thrown labels es instr p0 ps _ hsplit
          (by rw [h]; exact (execSwitch_div_zero labels
            { es with cycles := es.cycles + 1 } p0 ps d hreg hval).1)
        rw [hx] at hexec
        simp at hexec
      · have hx := executeInstruction_of_fallthrough labels es instr p0 ps _ hsplit
          (by rw [h]; exact execSwitch_div_nonzero labels _ p0 ps d v hreg hval hv0)
        injection hx.symm.trans hexec with h1 _
        subst h1
        exact ⟨rfl, getD_set_self es.registers d _ (by omega)⟩
    · by_cases hv0 : v = 0
      · subst hv0
        have hx := executeInstruction_of_thrown labels es instr p0 ps _ hsplit
          (by rw [h]; exact (execSwitch_div_zero labels
            { es with cycles := es.cycles + 1 } p0 ps d hreg hval).2)
        rw [hx] at hexec
        simp at hexec
      · have hx := executeInstruction_of_fallthrough labels es instr p0 ps _ hsplit
          (by rw [h]; exact execSwitch_mod_nonzero labels _ p0 ps d v hreg hval hv0)
        injection hx.symm.trans hexec with h1 _
        subst h1
        exact ⟨rfl, getD_set_self es.registers d _ (by omega)⟩
  · intro labels es instr p0 ps es' d hsplit h hreg hlen hexec
    have hd := getRegisterIndex_lt _ _ hreg
    have hx := executeInstruction_of_fallthrough labels es instr p0 ps _ hsplit
      (by rw [h]; exact execSwitch_inc labels _ p0 ps d hreg)
    injection hx.symm.trans hexec with h1 _
    subst h1
    exact ⟨rfl, getD_set_self es.registers d _ (by omega)⟩
  · intro labels es instr p0 ps es' d hsplit h hreg hlen hexec
    have hd := getRegisterIndex_lt _ _ hreg
    have hx := executeInstruction_of_fallthrough labels es instr p0 ps _ hsplit
      (by rw [h]; exact execSwitch_dec labels _ p0 ps d hreg)
    injection hx.symm.trans hexec with h1 _
    subst h1
    exact ⟨rfl, getD_set_self es.registers d _ (by omega)⟩
  · intro labels es instr p0 ps es' a b hsplit hop hval1 hval2 hexec
    have hx := executeInstruction_of_fallthrough labels es instr p0 ps _ hsplit
      (by rw [hop]; exact execSwitch_cmp labels _ p0 ps a b hval1 hval2)
    injection hx.symm.trans hexec with h1 _
    subst h1
    exact ⟨rfl, rfl⟩
  · intro labels es instr p0 ps es' d v hsplit hop hreg hval hlen hexec
    have hd := getRegisterIndex_lt _ _ hreg
    simp only [List.mem_cons, List.not_mem_nil, or_false] at hop
    rcases hop with h | h | h | h | h
    · have hx := executeInstruction_of_fallthrough labels es instr p0 ps _ hsplit
        (by rw [h]; exact execSwitch_and labels _ p0 ps d v hreg hval)
      injection hx.symm.trans hexec with h1 _
      subst h1
      exact congrArg flagsOf (getD_set_self es.registers d _ (by omega)).symm
    · have hx := executeInstruction_of_fallthrough labels es instr p0 ps _ hsplit
        (by rw [h]; exact execSwitch_or labels _ p0 ps d v hreg hval)
      injection hx.symm.trans hexec with h1 _
      subst h1
      exact congrArg flagsOf (getD_set_self es.registers d _ (by omega)).symm
    · have hx := executeInstruction_of_fallthrough labels es instr p0 ps _ hsplit
        (by rw [h]; exact execSwitch_xor labels _ p0 ps d v hreg hval)
      injection hx.symm.trans hexec with h1 _
      subst h1
      exact congrArg flagsOf (getD_set_self es.registers d _ (by omega)).symm
    · have hx := executeInstruction_of_fallthrough labels es instr p0 ps _ hsplit
        (by rw [h]; exact execSwitch_shl labels _ p0 ps d v hreg hval)
      injection hx.symm.trans hexec with h1 _
      subst h1
      exact congrArg flagsOf (getD_set_self es.registers d _ (by omega)).symm
    · have hx := executeInstruction_of_fallthrough labels es instr p0 ps _ hsplit
        (by rw [h]; exact execSwitch_shr labels _ p0 ps d v hreg hval)
      injection hx.symm.trans hexec with h1 _
      subst h1
      exact congrArg flagsOf (getD_set_self es.registers d _ (by omega)).symm
  · intro labels es instr p0 ps es' d hsplit hop hreg hlen hexec
    have hd := getRegisterIndex_lt _ _ hreg
    have hx := executeInstruction_of_fallthrough labels es instr p0 ps _ hsplit
      (by rw [hop]; exact execSwitch_not labels _ p0 ps d hreg)
    injection hx.symm.trans hexec with h1 _
    subst h1
    exact congrArg flagsOf (getD_set_self es.registers d _ (by omega)).symm

set_option maxRecDepth 100000 in
/-- Claim C3 amended witness: `SUB R0 1` on a fresh machine (R0 = 0) has raw
result -1; the flags are recomputed from it (negative and carry set, zero
clear) and R0 receives `-1 & 0xffff` = 65535. -/
theorem flags_recompute_amended_witness :
    (splitParts "SUB R0 1" = "SUB" :: ["R0", "1"] ∧
     toUpperStr "SUB" ∈ (["ADD", "SUB", "MUL", "DIV", "MOD"] : List String) ∧
     getRegisterIndex (["R0", "1"].getD 0 "") = .ok 0 ∧
     parseValue [] (CPU.resetState none).exec.registers (["R0", "1"].getD 1 "") = .ok 1 ∧
     (CPU.resetState none).exec.registers.length = REGISTER_COUNT ∧
     executeInstruction [] (CPU.resetState none).exec "SUB R0 1" =
       ((executeInstruction [] (CPU.resetState none).exec "SUB R0 1").1, none)) ∧
    ((executeInstruction [] (CPU.resetState none).exec "SUB R0 1").1.flags =
       flagsOf (arithRaw (toUpperStr "SUB")
         ((CPU.resetState none).exec.registers.getD 0 0) 1) ∧
     (executeInstruction [] (CPU.resetState none).exec "SUB R0 1").1.registers.getD 0 0 =
       mask16 (arithRaw (toUpperStr "SUB")
         ((CPU.resetState none).exec.registers.getD 0 0) 1)) :=
  ⟨⟨by decide, by decide, by decide, by decide, by decide, by decide⟩,
   flags_recompute_amended.1 [] (CPU.resetState none).exec "SUB R0 1" "SUB" ["R0", "1"]
     (executeInstruction [] (CPU.resetState none).exec "SUB R0 1").1 0 1
     (by decide) (by decide) (by decide) (by decide) (by decide) (by decide)⟩

/-- Claim C8 amended: MOV/arithmetic/logical writes are masked, but the
data-movement paths are not: PUSH stores its resolved operand into
`memory[SP]` verbatim, POP copies `memory[(SP+1) & 0xff]` into the
destination register verbatim, and GRESULT copies the compute unit's result
register verbatim.  The all-registers-16-bit invariant therefore holds only
as long as every value these paths copy is itself in [0, 65535]. -/
theorem push_pop_gresult_copy_unmasked :
    (∀ (labels : Labels) (es : ExecState) (instr p0 : String) (ps : List String)
       (es' : ExecState) (v : Int),
      splitParts instr = p0 :: ps →
      toUpperStr p0 = "PUSH" →
      parseValue labels es.registers (ps.getD 0 "") = .ok v →
      executeInstruction labels es instr = (es', none) →
      es'.memory = idxSet es.memory es.sp v ∧ es'.sp = mask8 (es.sp - 1)) ∧
    (∀ (labels : Labels) (es : ExecState) (instr p0 : String) (ps : List String)
       (es' : ExecState) (d : Nat),
      splitParts instr = p0 :: ps →
      toUpperStr p0 = "POP" →
      getRegisterIndex (ps.getD 0 "") = .ok d →
      es.registers.length = REGISTER_COUNT →
      executeInstruction labels es instr = (es', none) →
      es'.sp = mask8 (es.sp + 1) ∧
      es'.registers.getD d 0 = idxGet es.memory (mask8 (es.sp + 1))) ∧
    (∀ (labels : Labels) (es : ExecState) (instr p0 : String) (ps : List String)
       (es' : ExecState) (d : Nat) (g : GPU),
      splitParts instr = p0 :: ps →
      toUpperStr p0 = "GRESULT" →
      es.gpu = some g →
      getRegisterIndex (ps.getD 0 "") = .ok d →
      es.registers.length = REGISTER_COUNT →
      executeInstruction labels es instr = (es', none) →
      es'.registers.getD d 0 = g.getResult) := by
  refine ⟨?_, ?_, ?_⟩
  · intro labels es instr p0 ps es' v hsplit h hval hexec
    have hx := executeInstruction_of_fallthrough labels es instr p0 ps _ hsplit
      (by rw [h]; exact execSwitch_push labels _ p0 ps v hval)
    injection hx.symm.trans hexec with h1 _
    subst h1
    exact ⟨rfl, rfl⟩
  · intro labels es instr p0 ps es' d hsplit h hreg hlen hexec
    have hd := getRegisterIndex_lt _ _ hreg
    have hx := executeInstruction_of_fallthrough labels es instr p0 ps _ hsplit
      (by rw [h]; exact execSwitch_pop labels _ p0 ps d hreg)
    injection hx.symm.trans hexec with h1 _
    subst h1
    exact ⟨rfl, getD_set_self es.registers d _ (by omega)⟩
  · intro labels es instr p0 ps es' d g hsplit h hgpu hreg hlen hexec
    have hd := getRegisterIndex_lt _ _ hreg
    have hx := executeInstruction_of_fallthrough labels es instr p0 ps _ hsplit
      (by rw [h]; exact execSwitch_gresult labels _ p0 ps d g hgpu hreg)
    injection hx.symm.trans hexec with h1 _
    subst h1
    exact getD_set_self es.registers d _ (by omega)

set_option maxRecDepth 100000 in
/-- Claim C8 amended witness: `PUSH 70000` on a fresh machine stores the
out-of-range value 70000 verbatim at `memory[0xFF]` and decrements SP. -/
theorem push_pop_gresult_copy_unmasked_witness :
    (splitParts "PUSH 70000" = "PUSH" :: ["70000"] ∧
     toUpperStr "PUSH" = "PUSH" ∧
     parseValue [] (CPU.resetState none).exec.registers (["70000"].getD 0 "") = .ok 70000 ∧
     executeInstruction [] (CPU.resetState none).exec "PUSH 70000" =
       ((executeInstruction [] (CPU.resetState none).exec "PUSH 70000").1, none)) ∧
    ((executeInstruction [] (CPU.resetState none).exec "PUSH 70000").1.memory =
       idxSet (CPU.resetState none).exec.memory (CPU.resetState none).exec.sp 70000 ∧
     (executeInstruction [] (CPU.resetState none).exec "PUSH 70000").1.sp =
       mask8 ((CPU.resetState none).exec.sp - 1)) :=
  ⟨⟨by decide, by decide, by decide, by decide⟩,
   push_pop_gresult_copy_unmasked.1 [] (CPU.resetState none).exec "PUSH 70000" "PUSH"
     ["70000"] (executeInstruction [] (CPU.resetState none).exec "PUSH 70000").1 70000
     (by decide) (by decide) (by decide) (by decide)⟩

/-- Claim C9 amended witness: after pass 1 has read `x: NOP`, processing the
line `x: HALT` appends exactly the duplicate-label diagnostic and changes
nothing else - in particular the `HALT` text is not kept. -/
theorem duplicate_label_step_amended_witness :
    (labelSplit (stripComment "x: HALT") = some ("x", " HALT") ∧
     (((pass1Step Pass1State.initial 1 "x: NOP").labels.lookup "x").isSome = true)) ∧
    pass1Step (pass1Step Pass1State.initial 1 "x: NOP") 2 "x: HALT" =
      { pass1Step Pass1State.initial 1 "x: NOP" with
        errors := (pass1Step Pass1State.initial 1 "x: NOP").errors ++
          [⟨2, "Duplicate label: " ++ "x"⟩] } :=
  ⟨⟨by decide, by decide⟩,
   duplicate_label_step_amended (pass1Step Pass1State.initial 1 "x: NOP") 2 "x: HALT"
     "x" " HALT" (by decide) (by decide)⟩

/-- Only the HALT/HLT branch of the instruction switch can set the halted
flag: every other fall-through branch leaves it as it was. -/
theorem execSwitch_halted_fall (labels : Labels) (esb : ExecState) (parts : List String)
    (op : String) (es₂ : ExecState)
    (h : execSwitch labels esb parts op = .fallthrough es₂) :
    es₂.halted = esb.halted ∨ op = "HALT" ∨ op = "HLT" := by
  unfold execSwitch at h
  simp only [] at h
  repeat' split at h
  all_goals first
    | (injection h with h2; subst h2; simp_all)
    | cases h

/-- The jump branches of the instruction switch never touch the halted
flag. -/
theorem execSwitch_halted_jump (labels : Labels) (esb : ExecState) (parts : List String)
    (op : String) (es₂ : ExecState)
    (h : execSwitch labels esb parts op = .jumped es₂) :
    es₂.halted = esb.halted := by
  unfold execSwitch at h
  simp only [] at h
  repeat' split at h
  all_goals first
    | (injection h with h2; subst h2; simp_all)
    | cases h

/-- `executeInstruction` sets the halted flag only for a HALT/HLT opcode
(and never clears it); a thrown branch leaves it unchanged. -/
theorem executeInstruction_halted (labels : Labels) (es : ExecState) (instr : String)
    (h : (executeInstruction labels es instr).1.halted = true)
    (hh : es.halted = false) :
    toUpperStr ((splitParts instr).getD 0 "") = "HALT" ∨
    toUpperStr ((splitParts instr).getD 0 "") = "HLT" := by
  unfold executeInstruction at h
  simp only [] at h
  rcases hsp : (splitParts instr).head? with _ | ⟨p0⟩
  · rw [hsp] at h
    simp only [] at h
    rw [show (splitParts instr).getD 0 "" = "" by
      cases hsp2 : splitParts instr with
      | nil => rfl
      | cons a l => rw [hsp2] at hsp; simp at hsp]
    simp [hh] at h
  · rw [hsp] at h
    simp only [] at h
    have hp0 : (splitParts instr).getD 0 "" = p0 := by
      cases hsp2 : splitParts instr with
      | nil => rw [hsp2] at hsp; simp at hsp
      | cons a l => rw [hsp2] at hsp; simp at hsp; simp [hsp]
    rw [hp0]
    rcases hsw : execSwitch labels { es with cycles := es.cycles + 1 }
        (splitParts instr) (toUpperStr p0) with es₂ | es₂ | msg
    · rw [hsw] at h
      simp only [] at h
      rcases execSwitch_halted_fall _ _ _ _ _ hsw with heq | hop | hop
      · exfalso
        rw [show ({ es₂ with pc := es₂.pc + 1 } : ExecState).halted = es₂.halted from rfl,
          heq] at h
        simp [hh] at h
      · exact Or.inl hop
      · exact Or.inr hop
    · rw [hsw] at h
      simp only [] at h
      exfalso
      rw [execSwitch_halted_jump _ _ _ _ _ hsw] at h
      simp [hh] at h
    · rw [hsw] at h
      simp only [] at h
      exfalso
      rw [show ({ es with cycles := es.cycles + 1 } : ExecState).halted = es.halted
        from rfl] at h
      simp [hh] at h

/-- `microStepGo` never changes the instruction register. -/
theorem microStepGo_IR (c' : CPU) :
    (CPU.microStepGo c').1.instructionRegister = c'.instructionRegister := by
  unfold CPU.microStepGo
  simp only []
  split
  · split
    · rfl
    · rfl
  · rfl

/-- If the `microStepGo` tail of `microStep` sets the halted flag, either it
emitted an error event or the latched instruction's opcode is HALT/HLT. -/
theorem microStepGo_halted (c' : CPU)
    (hh : c'.exec.halted = false)
    (hhalt : (CPU.microStepGo c').1.exec.halted = true) :
    (∃ i msg, CPUEvent.error i msg ∈ (CPU.microStepGo c').2.1) ∨
    toUpperStr ((splitParts c'.instructionRegister).getD 0 "") = "HALT" ∨
    toUpperStr ((splitParts c'.instructionRegister).getD 0 "") = "HLT" := by
  unfold CPU.microStepGo at *
  simp only [] at hhalt ⊢
  by_cases hif : c'.microOps.length ≤ c'.currentMicroOpIndex + 1
  · rw [if_pos hif] at hhalt ⊢
    rcases hex : executeInstruction c'.labels c'.exec c'.instructionRegister
      with ⟨es', _ | msg⟩
    · rw [hex] at hhalt
      exact Or.inr (executeInstruction_halted c'.labels c'.exec c'.instructionRegister
        (by rw [hex]; exact hhalt) hh)
    · exact Or.inl ⟨c'.instructionRegister, msg, by simp⟩
  · rw [if_neg hif] at hhalt
    exact absurd hhalt (by simp [hh])

/-- Claim C10 amended: a `step()` or `microStep()` transition out of a
non-halted state sets the halted flag only in one of three cases: the PC
is at or past the end of the program (run-off-the-end, which emits a halt
event but no error event), an error event was emitted by this transition (a
fatal runtime error), or the executed instruction's opcode is HALT/HLT
(for `microStep` that instruction is the one latched in the instruction
register by the transition). -/
theorem halted_sources_amended :
    (∀ (c : CPU),
      c.exec.halted = false →
      (CPU.step c).1.exec.halted = true →
      (c.program.length : Int) ≤ c.exec.pc ∨
      (∃ i msg, CPUEvent.error i msg ∈ (CPU.step c).2.1) ∨
      toUpperStr ((splitParts c.fetchInstr).getD 0 "") = "HALT" ∨
      toUpperStr ((splitParts c.fetchInstr).getD 0 "") = "HLT") ∧
    (∀ (c : CPU),
      c.exec.halted = false →
      (CPU.microStep c).1.exec.halted = true →
      (c.program.length : Int) ≤ c.exec.pc ∨
      (∃ i msg, CPUEvent.error i msg ∈ (CPU.microStep c).2.1) ∨
      toUpperStr ((splitParts (CPU.microStep c).1.instructionRegister).getD 0 "") = "HALT" ∨
      toUpperStr ((splitParts (CPU.microStep c).1.instructionRegister).getD 0 "") = "HLT") := by
  constructor
  · intro c hh hhalt
    by_cases hpc : (c.program.length : Int) ≤ c.exec.pc
    · exact Or.inl hpc
    · have hrun := step_run c hh (by omega)
      rcases hgen : generateMicroOps c.labels c.exec c.fetchInstr with e | l
      · rw [hgen] at hrun
        rw [hrun] at hhalt
        simp [hh] at hhalt
      · rw [hgen] at hrun
        rcases hex : executeInstruction c.labels c.exec c.fetchInstr with ⟨es', _ | msg⟩
        · rw [hex] at hrun
          rw [hrun] at hhalt
          refine Or.inr (Or.inr ?_)
          exact executeInstruction_halted c.labels c.exec c.fetchInstr
            (by rw [hex]; exact hhalt) hh
        · rw [hex] at hrun
          rw [hrun]
          exact Or.inr (Or.inl ⟨c.fetchInstr, msg, by simp⟩)
  · intro c hh hhalt
    by_cases hpc : (c.program.length : Int) ≤ c.exec.pc
    · exact Or.inl hpc
    · by_cases hfresh : c.microOps.length ≤ c.currentMicroOpIndex
      · have hrun := microStep_fresh c hh (by omega) hfresh
        rcases hgen : generateMicroOps c.labels c.exec c.fetchInstr with e | l
        · rw [hgen] at hrun
          rw [hrun] at hhalt
          simp [hh] at hhalt
        · rw [hgen] at hrun
          simp only [] at hrun
          rw [hrun] at hhalt
          rw [hrun]
          rw [microStepGo_IR]
          exact Or.inr (microStepGo_halted
            { c with instructionRegister := c.fetchInstr
                     microOps := l, currentMicroOpIndex := 0 } hh hhalt)
      · have hrun := microStep_cont c hh (by omega) hfresh
        rw [hrun] at hhalt
        rw [hrun]
        rw [microStepGo_IR]
        exact Or.inr (microStepGo_halted c hh hhalt)

set_option maxRecDepth 100000 in
/-- Claim C10 amended witness: on the machine that has just executed `NOP`
(PC = 1, program length 1, not halted), the next `step()` halts; the
amended theorem's disjunction holds there (by the run-off-the-end case). -/
theorem halted_sources_amended_witness :
    ((CPU.step (CPU.loadProgram none ["NOP"] [])).1.exec.halted = false ∧
     (CPU.step (CPU.step (CPU.loadProgram none ["NOP"] [])).1).1.exec.halted = true) ∧
    ((((CPU.step (CPU.loadProgram none ["NOP"] [])).1.program.length : Int) ≤
        (CPU.step (CPU.loadProgram none ["NOP"] [])).1.exec.pc) ∨
     (∃ i msg, CPUEvent.error i msg ∈
        (CPU.step (CPU.step (CPU.loadProgram none ["NOP"] [])).1).2.1) ∨
     toUpperStr ((splitParts (CPU.step
        (CPU.loadProgram none ["NOP"] [])).1.fetchInstr).getD 0 "") = "HALT" ∨
     toUpperStr ((splitParts (CPU.step
        (CPU.loadProgram none ["NOP"] [])).1.fetchInstr).getD 0 "") = "HLT") :=
  ⟨⟨by decide, by decide⟩,
   halted_sources_amended.1 (CPU.step (CPU.loadProgram none ["NOP"] [])).1
     (by decide) (by decide)⟩

/-! ## Claim C1 -/

/-- The value of an `Except.ok`, with a default for errors. -/
def okD {ε α : Type} (x : Except ε α) (d : α) : α :=
  match x with
  | .ok a => a
  | .error _ => d

/-- The machine mid-way through micro-stepping one instruction: `k`
micro-ops consumed, authoritative state untouched. -/
def CPU.midState (c : CPU) (instr : String) (l : List MicroOp) (k : Nat) : CPU :=
  { c with instructionRegister := instr, microOps := l, currentMicroOpIndex := k
           currentStage := (l.getD (k - 1) default).stage }

/-- The authoritative state after executing one instruction, including the
catch-path's halt (shared by `step` and the last `microStep`). -/
def execCommit (labels : Labels) (es : ExecState) (instr : String) : ExecState :=
  match executeInstruction labels es instr with
  | (es', none) => es'
  | (es', some _) => { es' with halted := true }

/-- A successful `generateMicroOps` always yields at least the FETCH and
DECODE micro-ops. -/
theorem gen_ok_shape (labels : Labels) (es : ExecState) (instr : String)
    (l : List MicroOp) (h : generateMicroOps labels es instr = .ok l) :
    2 ≤ l.length := by
  unfold generateMicroOps at h
  simp only [] at h
  split at h
  · cases h
  · split at h
    · cases h
    · injection h with h2
      subst h2
      simp

theorem microStepGo_cont (c' : CPU)
    (h : c'.currentMicroOpIndex + 1 < c'.microOps.length) :
    CPU.microStepGo c' =
      ({ c' with
          currentStage := (c'.microOps.getD c'.currentMicroOpIndex default).stage
          currentMicroOpIndex := c'.currentMicroOpIndex + 1 },
       [CPUEvent.micro c'.instructionRegister
          (c'.microOps.getD c'.currentMicroOpIndex default)],
       .ok (some (c'.microOps.getD c'.currentMicroOpIndex default))) := by
  unfold CPU.microStepGo
  simp only []
  rw [if_neg (by omega)]

theorem microStepGo_exec (c' : CPU)
    (h : c'.microOps.length ≤ c'.currentMicroOpIndex + 1) :
    (CPU.microStepGo c').1.exec = execCommit c'.labels c'.exec c'.instructionRegister := by
  unfold CPU.microStepGo execCommit
  simp only []
  rw [if_pos h]
  rcases hex : executeInstruction c'.labels c'.exec c'.instructionRegister
    with ⟨es', _ | msg⟩ <;> rfl

set_option maxRecDepth 1000 in
/-- Claim C1 (confirmed): from a non-halted machine at an instruction
boundary whose current instruction generates its micro-op list without
throwing, every micro-step before the last leaves the authoritative state
(registers, memory, PC, SP, flags, halted, cycles, attached GPU) exactly as
it was, and after the last micro-op of the instruction the authoritative
state equals the one produced by a single `step()` from the same start:
the real mutation happens exactly once, after the final micro-operation,
never interleaved with them.  (The pipeline bookkeeping fields -- the
cleared descriptive micro-op buffer and its index -- are display-only and
are not part of the authoritative state.) -/
theorem microstep_refines_step (c : CPU) (l : List MicroOp)
    (hh : c.exec.halted = false)
    (hpc : c.exec.pc < (c.program.length : Int))
    (hfresh : c.microOps.length ≤ c.currentMicroOpIndex)
    (hgen : generateMicroOps c.labels c.exec c.fetchInstr = .ok l) :
    (∀ k, k < l.length → (CPU.msIter k c).exec = c.exec) ∧
    (CPU.msIter l.length c).exec = (CPU.step c).1.exec := by
  have hlen2 := gen_ok_shape _ _ _ _ hgen
  have hstep : (CPU.step c).1.exec = execCommit c.labels c.exec c.fetchInstr := by
    have hrun := step_run c hh hpc
    rw [hgen] at hrun
    simp only [] at hrun
    unfold execCommit
    rcases hex : executeInstruction c.labels c.exec c.fetchInstr with ⟨es', _ | msg⟩
    · rw [hex] at hrun
      rw [hrun]
    · rw [hex] at hrun
      rw [hrun]
  have hfirst : CPU.msIter 1 c = CPU.midState c c.fetchInstr l 1 := by
    have hrun := microStep_fresh c hh hpc hfresh
    rw [hgen] at hrun
    simp only [] at hrun
    show (CPU.microStep c).1 = _
    rw [hrun]
    rw [microStepGo_cont
      { c with instructionRegister := c.fetchInstr
               microOps := l, currentMicroOpIndex := 0 }
      (show 0 + 1 < l.length by omega)]
    rfl
  have h1 : ∀ k, 1 ≤ k → k + 1 ≤ l.length →
      CPU.msIter k c = CPU.midState c c.fetchInstr l k := by
    intro k
    induction k with
    | zero => intro hk _; exact absurd hk (by omega)
    | succ n ih =>
      intro hk1 hk2
      by_cases hn : n = 0
      · subst hn
        exact hfirst
      · have ihh := ih (by omega) (by omega)
        show (CPU.microStep (CPU.msIter n c)).1 = _
        rw [ihh]
        rw [microStep_cont (CPU.midState c c.fetchInstr l n) hh hpc
          (show ¬ l.length ≤ n by omega)]
        rw [microStepGo_cont (CPU.midState c c.fetchInstr l n)
          (show n + 1 < l.length by omega)]
        rfl
  constructor
  · intro k hk
    rcases Nat.eq_zero_or_pos k with h0 | hpos
    · subst h0
      rfl
    · rw [h1 k hpos (by omega)]
      rfl
  · have hlast : CPU.msIter l.length c = (CPU.microStep (CPU.msIter (l.length - 1) c)).1 := by
      have heq : l.length = (l.length - 1) + 1 := by omega
      rw [heq]
      rfl
    rw [hlast, h1 (l.length - 1) (by omega) (by omega)]
    rw [microStep_cont (CPU.midState c c.fetchInstr l (l.length - 1)) hh hpc
      (show ¬ l.length ≤ l.length - 1 by omega)]
    rw [microStepGo_exec (CPU.midState c c.fetchInstr l (l.length - 1))
      (show l.length ≤ (l.length - 1) + 1 by omega)]
    rw [hstep]
    rfl

set_option maxRecDepth 100000 in
/-- Claim C1 witness: the freshly loaded one-instruction program
`ADD R0, 5` satisfies all hypotheses (not halted, PC in range, fresh
micro-op buffer, micro-op generation succeeds with a 6-element list), and
the refinement conclusion holds for it. -/
theorem microstep_refines_step_witness :
    ((CPU.loadProgram none ["ADD R0, 5"] []).exec.halted = false ∧
     (CPU.loadProgram none ["ADD R0, 5"] []).exec.pc <
       ((CPU.loadProgram none ["ADD R0, 5"] []).program.length : Int) ∧
     (CPU.loadProgram none ["ADD R0, 5"] []).microOps.length ≤
       (CPU.loadProgram none ["ADD R0, 5"] []).currentMicroOpIndex ∧
     generateMicroOps (CPU.loadProgram none ["ADD R0, 5"] []).labels
       (CPU.loadProgram none ["ADD R0, 5"] []).exec
       (CPU.loadProgram none ["ADD R0, 5"] []).fetchInstr =
       .ok (okD (generateMicroOps (CPU.loadProgram none ["ADD R0, 5"] []).labels
         (CPU.loadProgram none ["ADD R0, 5"] []).exec
         (CPU.loadProgram none ["ADD R0, 5"] []).fetchInstr) [])) ∧
    ((∀ k, k < (okD (generateMicroOps (CPU.loadProgram none ["ADD R0, 5"] []).labels
         (CPU.loadProgram none ["ADD R0, 5"] []).exec
         (CPU.loadProgram none ["ADD R0, 5"] []).fetchInstr) []).length →
       (CPU.msIter k (CPU.loadProgram none ["ADD R0, 5"] [])).exec =
         (CPU.loadProgram none ["ADD R0, 5"] []).exec) ∧
     (CPU.msIter (okD (generateMicroOps (CPU.loadProgram none ["ADD R0, 5"] []).labels
         (CPU.loadProgram none ["ADD R0, 5"] []).exec
         (CPU.loadProgram none ["ADD R0, 5"] []).fetchInstr) []).length
         (CPU.loadProgram none ["ADD R0, 5"] [])).exec =
       (CPU.step (CPU.loadProgram none ["ADD R0, 5"] [])).1.exec) :=
  ⟨⟨by decide, by decide, by decide, by decide⟩,
   microstep_refines_step (CPU.loadProgram none ["ADD R0, 5"] [])
     (okD (generateMicroOps (CPU.loadProgram none ["ADD R0, 5"] []).labels
       (CPU.loadProgram none ["ADD R0, 5"] []).exec
       (CPU.loadProgram none ["ADD R0, 5"] []).fetchInstr) [])
     (by decide) (by decide) (by decide) (by decide)⟩

end CpuSim
